import Mathlib

/-!
# ShapeExtraction: `src/PointCloud.hpp`

A shallow embedding of the header `PointCloud.hpp`:

* `Point` with `distance2`, `dot` and its arithmetic operators, and the column
  container `PointCloud<T>`;
* the converting constructor `PointCloud<T>::PointCloud(points, normals)`;
* the exporter `PointCloud<T>::saveAsPly` (`saveAsPlyEffect`, and `saveAsPly` for
  what the caller sees);
* `PointCloud<T>::setNormals`;
* `Point::getMpiDatatype` as a step on explicit process state.

Conventions of the embedding.

* `std::vector<T>` is `List T`; `v.size()` is `v.length`.
* `float` is a type parameter `F`; the implicit conversion `float → T` that the
  constructor performs on every assignment is a parameter `conv : F → T`
  (the identity when `T` is `float`).
* A call either returns or ends the process.  Functions that can end the
  process return `Except Fault _`.  `assert(e)` is the `<cassert>` macro with
  assertions enabled: it ends the process with `Fault.assertFailed` when `e`
  is false.  An access `v[i]` with `i ≥ v.size()` has no defined behaviour and
  is reported as `Fault.outOfBounds`.
* `std::ofstream` output is a `String` that every `<<` appends to;
  `std::endl` appends `"\n"`.
-/

namespace ShapeExtraction

/-! ## Faults -/

/-- Ways in which a call fails to return: the process is aborted, or the call
leaves defined behaviour. -/
inductive Fault where
  /-- an `assert(...)` whose condition is false -/
  | assertFailed
  /-- an access `v[i]` with `i` not below `v.size()` -/
  | outOfBounds
  /-- the communication layer raised an error under `MPI_ERRORS_ARE_FATAL` -/
  | mpiAbort
  /-- a local variable read before anything was stored in it -/
  | indeterminate
  deriving DecidableEq, Repr

/-- The macro `assert(cond)`. -/
def assert (cond : Bool) : Except Fault Unit :=
  if cond then .ok () else .error .assertFailed

/-! ## `struct Point` -/

/-- The record `struct Point { float x, y, z; }`. -/
structure Point (F : Type) where
  x : F
  y : F
  z : F
  deriving DecidableEq, Repr

/-- The static member `Point::distance2(p1, p2)`. -/
def Point.distance2 {F : Type} [Add F] [Sub F] [Mul F] (p1 p2 : Point F) : F :=
  let x_diff := p1.x - p2.x
  let y_diff := p1.y - p2.y
  let z_diff := p1.z - p2.z
  x_diff * x_diff + y_diff * y_diff + z_diff * z_diff

/-- The member `Point::dot(other)`. -/
def Point.dot {F : Type} [Add F] [Mul F] (self other : Point F) : F :=
  self.x * other.x + self.y * other.y + self.z * other.z

/-- The receiver after `operator+=(rhs)`. -/
def Point.addAssign {F : Type} [Add F] (self rhs : Point F) : Point F :=
  { x := self.x + rhs.x, y := self.y + rhs.y, z := self.z + rhs.z }

/-- The friend `operator+(lhs, rhs)`: `lhs += rhs; return lhs;` on a copy of `lhs`. -/
def Point.add {F : Type} [Add F] (lhs rhs : Point F) : Point F :=
  lhs.addAssign rhs

/-- The receiver after `operator/=(rhs)`. -/
def Point.divAssign {F : Type} [Div F] (self : Point F) (rhs : F) : Point F :=
  { x := self.x / rhs, y := self.y / rhs, z := self.z / rhs }

/-- The receiver after `operator-=(rhs)`. -/
def Point.subAssign {F : Type} [Sub F] (self rhs : Point F) : Point F :=
  { x := self.x - rhs.x, y := self.y - rhs.y, z := self.z - rhs.z }

/-- The friend `operator-(lhs, rhs)`: `lhs -= rhs; return lhs;` on a copy of `lhs`. -/
def Point.sub {F : Type} [Sub F] (lhs rhs : Point F) : Point F :=
  lhs.subAssign rhs

/-! ## `std::vector` primitives -/

/-- The call `v.resize(n)`: keeps the first `n` elements and pads with the
value-initialised element `d`. -/
def resize {T : Type} (v : List T) (n : Nat) (d : T) : List T :=
  v.take n ++ List.replicate (n - v.length) d

/-- Reading `v[i]`. -/
def vecGet {T : Type} (v : List T) (i : Nat) : Except Fault T :=
  match v[i]? with
  | some a => .ok a
  | none => .error .outOfBounds

/-- The assignment `v[i] = a`. -/
def vecSet {T : Type} (v : List T) (i : Nat) (a : T) : Except Fault (List T) :=
  if i < v.length then .ok (v.set i a) else .error .outOfBounds

/-! ## `class PointCloud<T>` -/

/-- The six public columns of `PointCloud<T>`. -/
structure PointCloud (T : Type) where
  x_vals : List T
  y_vals : List T
  z_vals : List T
  x_normals : List T
  y_normals : List T
  z_normals : List T
  deriving DecidableEq, Repr

/-- The default constructor `PointCloud() {}`: six empty vectors. -/
def PointCloud.empty (T : Type) : PointCloud T :=
  { x_vals := [], y_vals := [], z_vals := [],
    x_normals := [], y_normals := [], z_normals := [] }

/-- One iteration of the constructor's loop body, at index `i`. -/
def ctorBody {F T : Type} (conv : F → T) (points normals : List (Point F))
    (i : Nat) (pc : PointCloud T) : Except Fault (PointCloud T) := do
  let p ← vecGet points i
  let xv ← vecSet pc.x_vals i (conv p.x)
  let p ← vecGet points i
  let yv ← vecSet pc.y_vals i (conv p.y)
  let p ← vecGet points i
  let zv ← vecSet pc.z_vals i (conv p.z)
  let q ← vecGet normals i
  let xn ← vecSet pc.x_normals i (conv q.x)
  let q ← vecGet normals i
  let yn ← vecSet pc.y_normals i (conv q.y)
  let q ← vecGet normals i
  let zn ← vecSet pc.z_normals i (conv q.z)
  pure { x_vals := xv, y_vals := yv, z_vals := zv,
         x_normals := xn, y_normals := yn, z_normals := zn }

/-- The loop `for (size_t i = 0; i < n; ++i) { ... }` of the constructor, entered
at index `i` with `todo = n - i` iterations left. -/
def ctorLoop {F T : Type} (conv : F → T) (points normals : List (Point F)) :
    (todo : Nat) → (i : Nat) → PointCloud T → Except Fault (PointCloud T)
  | 0, _, pc => pure pc
  | todo + 1, i, pc => do
      let pc1 ← ctorBody conv points normals i pc
      ctorLoop conv points normals todo (i + 1) pc1

/-- The constructor `PointCloud<T>::PointCloud(points_ptr, normals)`; `d` is the
value-initialised `T()` that `resize` pads with. -/
def PointCloud.ctor {F T : Type} (conv : F → T) (d : T)
    (points normals : List (Point F)) : Except Fault (PointCloud T) := do
  assert (points.length == normals.length)
  let n := points.length
  let pc := PointCloud.empty T
  let pc := { pc with x_vals := resize pc.x_vals n d }
  let pc := { pc with y_vals := resize pc.y_vals n d }
  let pc := { pc with z_vals := resize pc.z_vals n d }
  let pc := { pc with x_normals := resize pc.x_normals n d }
  let pc := { pc with y_normals := resize pc.y_normals n d }
  let pc := { pc with z_normals := resize pc.z_normals n d }
  ctorLoop conv points normals n 0 pc

/-! ## `PointCloud<T>::saveAsPly` -/

/-- The part of the file system `saveAsPly` touches. -/
structure FileSystem where
  /-- whether `of.open(path)` leaves the stream in a good state -/
  openable : String → Bool
  /-- the text of every existing file -/
  content : String → Option String

/-- The file at `path` holds `text` once a stream opened on it has been closed. -/
def FileSystem.store (fs : FileSystem) (path text : String) : FileSystem :=
  { fs with content := fun p => if p = path then some text else fs.content p }

/-- The manipulator `std::endl` (the flush has no effect on the text). -/
def endl : String := "\n"

/-- The body loop `for (size_t i = 0; i < x_vals.size(); ++i) { ... }` of
`saveAsPly`, entered at index `i` with `todo = x_vals.size() - i` iterations
left and the text `out` already in the stream.  `fmt` is `operator<<` on `T`. -/
def plyBodyLoop {T : Type} (fmt : T → String) (pc : PointCloud T) (has_normals : Bool) :
    (todo : Nat) → (i : Nat) → (out : String) → Except Fault String
  | 0, _, out => pure out
  | todo + 1, i, out => do
      let a ← vecGet pc.x_vals i
      let b ← vecGet pc.y_vals i
      let c ← vecGet pc.z_vals i
      let out := out ++ fmt a ++ " " ++ fmt b ++ " " ++ fmt c
      let out ←
        if has_normals then do
          let na ← vecGet pc.x_normals i
          let nb ← vecGet pc.y_normals i
          let nc ← vecGet pc.z_normals i
          pure (out ++ " " ++ fmt na ++ " " ++ fmt nb ++ " " ++ fmt nc)
        else pure out
      let out := out ++ endl
      plyBodyLoop fmt pc has_normals todo (i + 1) out

/-- The assertions at the top of `saveAsPly`. -/
def plyChecks {T : Type} (pc : PointCloud T) : Except Fault Unit := do
  assert (pc.x_vals.length == pc.y_vals.length)
  assert (pc.x_vals.length == pc.z_vals.length)
  let has_normals := pc.x_normals.length != 0
  if has_normals then
    assert (pc.x_vals.length == pc.x_normals.length)
    assert (pc.x_vals.length == pc.y_normals.length)
    assert (pc.x_vals.length == pc.z_normals.length)

/-- The header that `saveAsPly` writes, up to and including `end_header`. -/
def plyHeader {T : Type} (pc : PointCloud T) (has_normals : Bool) (out : String) : String :=
  let out := out ++ "ply" ++ endl
  let out := out ++ "format ascii 1.0" ++ endl
  let out := out ++ "element vertex " ++ toString pc.x_vals.length ++ endl
  let out := out ++ "property float x" ++ endl
  let out := out ++ "property float y" ++ endl
  let out := out ++ "property float z" ++ endl
  let out :=
    if has_normals then
      let out := out ++ "property float nx" ++ endl
      let out := out ++ "property float ny" ++ endl
      out ++ "property float nz" ++ endl
    else out
  out ++ "end_header" ++ endl

/-- The method `bool PointCloud<T>::saveAsPly(std::string filename)` with the file
system it leaves behind, however the call ends: first the assertions, then
`of.open(filename)`, then the header, the body loop and `of.close()`.  A failed
assertion ends the process before the stream exists, so the file system is the
one the call started with.  An out-of-range access in the loop happens after the
header was written, and the file is given the header as its text then; once the
assertions have passed the loop has no such access (`plyBodyLoop_eq`). -/
def saveAsPlyEffect {T : Type} (fmt : T → String) (pc : PointCloud T) (filename : String)
    (fs : FileSystem) : FileSystem × Except Fault Bool :=
  match plyChecks pc with
  | .error e => (fs, .error e)
  | .ok _ =>
      let has_normals := pc.x_normals.length != 0
      if !fs.openable filename then
        (fs, .ok false)
      else
        let out := ""
        let out := plyHeader pc has_normals out
        match plyBodyLoop fmt pc has_normals pc.x_vals.length 0 out with
        | .error e => (fs.store filename out, .error e)
        | .ok out => (fs.store filename out, .ok true)

/-- The method `bool PointCloud<T>::saveAsPly(std::string filename)` as its caller
sees it: the returned `bool` and the file system after the call, or the fault
that ended the process. -/
def saveAsPly {T : Type} (fmt : T → String) (pc : PointCloud T) (filename : String)
    (fs : FileSystem) : Except Fault (Bool × FileSystem) :=
  match saveAsPlyEffect fmt pc filename fs with
  | (fs1, .ok b) => .ok (b, fs1)
  | (_, .error e) => .error e

/-! ## `PointCloud<T>::setNormals` -/

/-- The type `T` a `PointCloud<T>` is instantiated with, as far as template
selection tells instantiations apart: `float`, for which the header declares the
explicit specialisation `PointCloud<float>::setNormals`, or any other type,
given by its name, for which the primary template is instantiated. -/
inductive StorageKind where
  | float
  | other (name : String)
  deriving DecidableEq, Repr

/-- The primary template `PointCloud<T>::setNormals`: `assert(false)`, then the
end of a `void` function with nothing assigned. -/
def setNormalsPrimary {F T : Type} (pc : PointCloud T) (_normals : List (Point F)) :
    Except Fault (PointCloud T) := do
  assert false
  pure pc

/-- The method `PointCloud<T>::setNormals` after template selection.  The
specialisation for `float` is only declared in the header; its body is the
parameter `setNormalsFloat`. -/
def setNormals {F T : Type} (kind : StorageKind)
    (setNormalsFloat : PointCloud T → List (Point F) → Except Fault (PointCloud T))
    (pc : PointCloud T) (normals : List (Point F)) : Except Fault (PointCloud T) :=
  match kind with
  | .float => setNormalsFloat pc normals
  | .other _ => setNormalsPrimary pc normals

/-! ## Memory layout of `Point` -/

/-- The value of `sizeof(float)`: `float` is the 4-byte single-precision kind that
`MPI_FLOAT` denotes. -/
def sizeofFloat : Nat := 4

/-- The value of `alignof(float)`. -/
def alignofFloat : Nat := 4

/-- The least multiple of `a` that is not below `n`. -/
def alignUp (n a : Nat) : Nat := (n + a - 1) / a * a

/-- Offsets of the members of a standard-layout struct whose members have the
given `(size, alignment)` pairs, in declaration order, when the first of them is
placed at or after byte `at`. -/
def memberOffsets : List (Nat × Nat) → Nat → List Nat
  | [], _ => []
  | (size, align) :: rest, pos =>
      alignUp pos align :: memberOffsets rest (alignUp pos align + size)

/-- The first byte past the last member. -/
def membersEnd : List (Nat × Nat) → Nat → Nat
  | [], pos => pos
  | (size, align) :: rest, pos => membersEnd rest (alignUp pos align + size)

/-- The value of `sizeof` for such a struct: the end of the last member, rounded
up to the strictest member alignment. -/
def structSize (members : List (Nat × Nat)) : Nat :=
  alignUp (membersEnd members 0) ((members.map Prod.snd).foldl max 1)

/-- The members `float x, y, z;` of `Point`. -/
def pointMembers : List (Nat × Nat) :=
  [(sizeofFloat, alignofFloat), (sizeofFloat, alignofFloat), (sizeofFloat, alignofFloat)]

/-- The value of `offsetof(Point, x)`. -/
def offsetof_x : Nat := (memberOffsets pointMembers 0).getD 0 0

/-- The value of `offsetof(Point, y)`. -/
def offsetof_y : Nat := (memberOffsets pointMembers 0).getD 1 0

/-- The value of `offsetof(Point, z)`. -/
def offsetof_z : Nat := (memberOffsets pointMembers 0).getD 2 0

/-- The value of `sizeof(Point)`, the stride of an array of `Point`. -/
def sizeofPoint : Nat := structSize pointMembers

/-- Byte offset of element `k` in an array whose elements are `stride` bytes apart. -/
def elementStart (stride : Int) (k : Nat) : Int := stride * k

/-! ## The communication layer

The header calls four functions of the MPI library.  The library is not part of
the repository; the definitions below give the behaviour the MPI standard
prescribes for them (type maps, lower bound, extent, commit), on a table of
derived datatypes. -/

/-- Basic datatypes of the communication layer. -/
inductive BasicType where
  | char
  | int
  | float
  | double
  deriving DecidableEq, Repr

/-- Size in bytes of a basic datatype. -/
def BasicType.size : BasicType → Nat
  | .char => 1
  | .int => 4
  | .float => sizeofFloat
  | .double => 8

/-- Alignment in bytes of a basic datatype. -/
def BasicType.align : BasicType → Nat
  | .char => 1
  | .int => 4
  | .float => alignofFloat
  | .double => 8

/-- Values of type `MPI_Datatype`. -/
inductive Handle where
  /-- the null handle `MPI_DATATYPE_NULL` -/
  | null
  /-- a predefined handle such as `MPI_FLOAT` -/
  | basic (b : BasicType)
  /-- the `k`-th derived datatype created in this process -/
  | derived (k : Nat)
  deriving DecidableEq, Repr

/-- The predefined handle `MPI_FLOAT`. -/
def MPI_FLOAT : Handle := .basic .float

/-- What the communication layer records about a datatype. -/
structure Datatype where
  /-- the type map: basic type and displacement of every entry -/
  typemap : List (BasicType × Int)
  /-- lower bound -/
  lb : Int
  /-- extent: the distance between consecutive elements of this type in a buffer -/
  extent : Int
  /-- whether `MPI_Type_commit` has been applied -/
  committed : Bool
  deriving DecidableEq, Repr

/-- The four library functions the header calls. -/
inductive MpiOp where
  | typeCreateStruct
  | typeGetExtent
  | typeCreateResized
  | typeCommit
  deriving DecidableEq, Repr

/-- One call into the communication layer, with its input arguments. -/
inductive MpiCall where
  | typeCreateStruct (count : Nat) (blocklengths : List Nat) (displacements : List Int)
      (types : List Handle)
  | typeGetExtent (datatype : Handle)
  | typeCreateResized (oldtype : Handle) (lb extent : Int)
  | typeCommit (datatype : Handle)
  deriving DecidableEq, Repr

/-- State of the communication layer in one process. -/
structure MpiEnv where
  /-- derived datatypes; `Handle.derived k` names entry `k` -/
  derived : List Datatype
  /-- every call made so far, oldest first -/
  log : List MpiCall
  /-- whether the error handler in force is `MPI_ERRORS_ARE_FATAL` (the default)
  rather than `MPI_ERRORS_RETURN` -/
  errorsAreFatal : Bool
  /-- functions that report an error in this environment whatever their
  arguments (resource exhaustion and the like) -/
  failing : List MpiOp
  deriving DecidableEq, Repr

/-- The datatype a handle names, if any. -/
def MpiEnv.lookup (e : MpiEnv) : Handle → Option Datatype
  | .null => none
  | .basic b => some { typemap := [(b, 0)], lb := 0, extent := b.size, committed := true }
  | .derived k => e.derived[k]?

/-- Type map of one block: `count` copies of `old`, the first at `disp`, each
`old.extent` after the previous one. -/
def blockTypemap (old : Datatype) (disp : Int) (count : Nat) : List (BasicType × Int) :=
  (List.range count).flatMap fun j =>
    old.typemap.map fun (b, d) => (b, d + disp + old.extent * j)

/-- Type map of `MPI_Type_create_struct`: the blocks one after the other.  Bounds
of the new type are taken from this type map (`typemapLb`, `typemapExtent`);
constituent types whose bounds were set explicitly would need the bound markers
of the standard, which `getMpiDatatype`, building from `MPI_FLOAT` only, never
passes. -/
def structTypemap : List (Nat × Int × Datatype) → List (BasicType × Int)
  | [] => []
  | (count, disp, old) :: rest => blockTypemap old disp count ++ structTypemap rest

/-- Lower bound of a type map: the least displacement (0 for the empty map). -/
def typemapLb (tm : List (BasicType × Int)) : Int :=
  match tm.map Prod.snd with
  | [] => 0
  | d :: ds => ds.foldl min d

/-- Upper bound of a type map before padding: the greatest end of an entry. -/
def typemapUb (tm : List (BasicType × Int)) : Int :=
  match tm.map (fun (b, d) => d + (b.size : Int)) with
  | [] => 0
  | u :: us => us.foldl max u

/-- Extent of a type map: upper bound minus lower bound, rounded up to the
strictest alignment among its basic types. -/
def typemapExtent (tm : List (BasicType × Int)) : Int :=
  alignUp (typemapUb tm - typemapLb tm).toNat ((tm.map fun (b, _) => b.align).foldl max 1)

/-- Outcome of a library call that reports an error: the process ends under
`MPI_ERRORS_ARE_FATAL`; under `MPI_ERRORS_RETURN` the call returns an error code
and stores nothing in its output arguments. -/
def mpiError {α : Type} (e : MpiEnv) : Except Fault (Option α × MpiEnv) :=
  if e.errorsAreFatal then .error .mpiAbort else .ok (none, e)

/-- The arguments of `MPI_Type_create_struct` resolved block by block, or `none`
when the arrays are shorter than `count` or a handle names no datatype. -/
def resolveBlocks (e : MpiEnv) : Nat → List Nat → List Int → List Handle →
    Option (List (Nat × Int × Datatype))
  | 0, _, _, _ => some []
  | n + 1, bl :: bls, d :: ds, t :: ts =>
      match e.lookup t, resolveBlocks e n bls ds ts with
      | some old, some rest => some ((bl, d, old) :: rest)
      | _, _ => none
  | _ + 1, _, _, _ => none

/-- The library function `MPI_Type_create_struct(count, blocklengths,
displacements, types, &newtype)`: the value stored in `newtype`, if any. -/
def MPI_Type_create_struct (e : MpiEnv) (count : Nat) (blocklengths : List Nat)
    (displacements : List Int) (types : List Handle) :
    Except Fault (Option Handle × MpiEnv) :=
  let e := { e with log := e.log ++ [.typeCreateStruct count blocklengths displacements types] }
  if MpiOp.typeCreateStruct ∈ e.failing then mpiError e
  else
    match resolveBlocks e count blocklengths displacements types with
    | none => mpiError e
    | some blocks =>
        let tm := structTypemap blocks
        let dt : Datatype :=
          { typemap := tm, lb := typemapLb tm, extent := typemapExtent tm, committed := false }
        .ok (some (.derived e.derived.length), { e with derived := e.derived ++ [dt] })

/-- The library function `MPI_Type_get_extent(datatype, &lb, &extent)`: the
values stored in `lb` and `extent`, if any. -/
def MPI_Type_get_extent (e : MpiEnv) (datatype : Handle) :
    Except Fault (Option (Int × Int) × MpiEnv) :=
  let e := { e with log := e.log ++ [.typeGetExtent datatype] }
  if MpiOp.typeGetExtent ∈ e.failing then mpiError e
  else
    match e.lookup datatype with
    | none => mpiError e
    | some dt => .ok (some (dt.lb, dt.extent), e)

/-- The library function `MPI_Type_create_resized(oldtype, lb, extent, &newtype)`:
the value stored in `newtype`, if any. -/
def MPI_Type_create_resized (e : MpiEnv) (oldtype : Handle) (lb extent : Int) :
    Except Fault (Option Handle × MpiEnv) :=
  let e := { e with log := e.log ++ [.typeCreateResized oldtype lb extent] }
  if MpiOp.typeCreateResized ∈ e.failing then mpiError e
  else
    match e.lookup oldtype with
    | none => mpiError e
    | some old =>
        let dt : Datatype :=
          { typemap := old.typemap, lb := lb, extent := extent, committed := false }
        .ok (some (.derived e.derived.length), { e with derived := e.derived ++ [dt] })

/-- The library function `MPI_Type_commit(&datatype)`; the handle is left as it is. -/
def MPI_Type_commit (e : MpiEnv) (datatype : Handle) :
    Except Fault (Option Unit × MpiEnv) :=
  let e := { e with log := e.log ++ [.typeCommit datatype] }
  if MpiOp.typeCommit ∈ e.failing then mpiError e
  else
    match datatype, e.lookup datatype with
    | .derived k, some dt =>
        .ok (some (), { e with derived := e.derived.set k { dt with committed := true } })
    | .basic _, some _ => .ok (some (), e)
    | _, _ => mpiError e

/-! ## `Point::getMpiDatatype` -/

/-- The two function-local statics of `getMpiDatatype` and the state of the
communication layer. -/
structure ProcState where
  mpi_datatype_initialized : Bool
  mpi_datatype : Handle
  mpi : MpiEnv
  deriving DecidableEq, Repr

/-- Process state before the first call: statics are zero-initialised. -/
def ProcState.start (mpi : MpiEnv) : ProcState :=
  { mpi_datatype_initialized := false, mpi_datatype := .null, mpi := mpi }

/-- Reading a local variable that was declared without an initialiser. -/
def readLocal {α : Type} : Option α → Except Fault α
  | some a => .ok a
  | none => .error .indeterminate

/-- The function `static MPI_Datatype Point::getMpiDatatype()`: the handle
returned and the state after the call. -/
def getMpiDatatype (s : ProcState) : Except Fault (Handle × ProcState) := do
  if !s.mpi_datatype_initialized then
    let n_elems := 3
    let block_lengths : List Nat := [1, 1, 1]
    let displacements : List Int := [offsetof_x, offsetof_y, offsetof_z]
    let types : List Handle := [MPI_FLOAT, MPI_FLOAT, MPI_FLOAT]
    let (struct_type, mpi) ←
      MPI_Type_create_struct s.mpi n_elems block_lengths displacements types
    let arg ← readLocal struct_type
    let (bounds, mpi) ← MPI_Type_get_extent mpi arg
    let (lb, extent) ← readLocal bounds
    let (resized, mpi) ← MPI_Type_create_resized mpi arg lb extent
    let mpi_datatype := resized.getD s.mpi_datatype
    let (_, mpi) ← MPI_Type_commit mpi mpi_datatype
    pure (mpi_datatype,
      { mpi_datatype_initialized := true, mpi_datatype := mpi_datatype, mpi := mpi })
  else
    pure (s.mpi_datatype, s)

/-- The handles returned by `n` calls of `getMpiDatatype` in a row, oldest first,
and the state after the last of them. -/
def callGetMpiDatatype : Nat → ProcState → Except Fault (List Handle × ProcState)
  | 0, s => pure ([], s)
  | n + 1, s => do
      let (h, s1) ← getMpiDatatype s
      let (hs, s2) ← callGetMpiDatatype n s1
      pure (h :: hs, s2)

/-! ## Notions used to state the properties -/

instance {ε α : Type} [DecidableEq ε] [DecidableEq α] : DecidableEq (Except ε α) := by
  intro a b
  cases a with
  | error e₁ =>
    cases b with
    | error e₂ =>
      exact if h : e₁ = e₂ then isTrue (by rw [h]) else isFalse (fun h2 => h (by cases h2; rfl))
    | ok _ => exact isFalse (fun h => by cases h)
  | ok a₁ =>
    cases b with
    | error _ => exact isFalse (fun h => by cases h)
    | ok a₂ =>
      exact if h : a₁ = a₂ then isTrue (by rw [h]) else isFalse (fun h2 => h (by cases h2; rfl))

/-- The columns the constructor's loop leaves when entered at index `i`: what
was there below `i`, and the converted inputs from `i` on. -/
def filledFrom {F T : Type} (conv : F → T) (points normals : List (Point F)) (i : Nat)
    (pc : PointCloud T) : PointCloud T :=
  { x_vals := pc.x_vals.take i ++ (points.drop i).map fun p => conv p.x,
    y_vals := pc.y_vals.take i ++ (points.drop i).map fun p => conv p.y,
    z_vals := pc.z_vals.take i ++ (points.drop i).map fun p => conv p.z,
    x_normals := pc.x_normals.take i ++ (normals.drop i).map fun p => conv p.x,
    y_normals := pc.y_normals.take i ++ (normals.drop i).map fun p => conv p.y,
    z_normals := pc.z_normals.take i ++ (normals.drop i).map fun p => conv p.z }

/-- The container the constructor builds: the six coordinate-wise projections. -/
def columnsOf {F T : Type} (conv : F → T) (points normals : List (Point F)) : PointCloud T :=
  { x_vals := points.map fun p => conv p.x,
    y_vals := points.map fun p => conv p.y,
    z_vals := points.map fun p => conv p.z,
    x_normals := normals.map fun p => conv p.x,
    y_normals := normals.map fun p => conv p.y,
    z_normals := normals.map fun p => conv p.z }

/-- Strings joined by single spaces. -/
def spaced : List String → String
  | [] => ""
  | [s] => s
  | s :: rest => s ++ " " ++ spaced rest

/-- The text made of the given lines, each ended by a newline. -/
def unlines : List String → String
  | [] => ""
  | l :: ls => l ++ "\n" ++ unlines ls

/-- Whether the normal block is exported: `x_normals` is not empty. -/
def hasNormals {T : Type} (pc : PointCloud T) : Bool := pc.x_normals.length != 0

/-- The header of the export, line by line. -/
def plyHeaderLines {T : Type} (pc : PointCloud T) : List String :=
  ["ply", "format ascii 1.0", "element vertex " ++ toString pc.x_vals.length,
   "property float x", "property float y", "property float z"]
  ++ (if hasNormals pc then ["property float nx", "property float ny", "property float nz"]
      else [])
  ++ ["end_header"]

/-- The entries of vertex `i` in file order: position, then normal if the normal
block is exported; an entry is `none` when the column has no index `i`. -/
def plyRow {T : Type} (pc : PointCloud T) (i : Nat) : List (Option T) :=
  [pc.x_vals[i]?, pc.y_vals[i]?, pc.z_vals[i]?]
  ++ (if hasNormals pc then [pc.x_normals[i]?, pc.y_normals[i]?, pc.z_normals[i]?] else [])

/-- The body of the export, line by line: one line per index of `x_vals`. -/
def plyBodyLines {T : Type} (fmt : T → String) (pc : PointCloud T) : List String :=
  (List.range pc.x_vals.length).map fun i => spaced ((plyRow pc i).reduceOption.map fmt)

/-- The whole text of the export. -/
def plyText {T : Type} (fmt : T → String) (pc : PointCloud T) : String :=
  unlines (plyHeaderLines pc ++ plyBodyLines fmt pc)

/-- The lines of a text: every newline ends a line; characters after the last
newline, if any, form a last line. -/
def splitLines : List Char → List (List Char)
  | [] => []
  | c :: cs =>
      if c = '\n' then [] :: splitLines cs
      else
        match splitLines cs with
        | [] => [[c]]
        | l :: ls => (c :: l) :: ls

/-- The lines of a text, as strings. -/
def textLines (s : String) : List String := (splitLines s.data).map String.mk

/-- The cloud of the points (1,0,0), (0,1,0), (0,0,1) without normals. -/
def cloud3 : PointCloud Int :=
  { x_vals := [1, 0, 0], y_vals := [0, 1, 0], z_vals := [0, 0, 1],
    x_normals := [], y_normals := [], z_normals := [] }

/-- The same cloud with the points attached as normals. -/
def cloud3n : PointCloud Int :=
  { x_vals := [1, 0, 0], y_vals := [0, 1, 0], z_vals := [0, 0, 1],
    x_normals := [1, 0, 0], y_normals := [0, 1, 0], z_normals := [0, 0, 1] }

/-- A file system in which every path but `"/"` opens and no file exists yet. -/
def fsEmpty : FileSystem := { openable := fun p => p != "/", content := fun _ => none }

/-- A state the public columns can hold: one vertex, `x_normals` empty and
`y_normals` not. -/
def cloudLoneNormal : PointCloud Int :=
  { x_vals := [1], y_vals := [2], z_vals := [3],
    x_normals := [], y_normals := [5], z_normals := [] }

/-- The condition under which the specification says `saveAsPly` aborts: the
position arrays do not all have the same length, or some normal array is not
empty while some normal array's length differs from the position-array length. -/
def specAbortCondition {T : Type} (pc : PointCloud T) : Prop :=
  ¬ (pc.x_vals.length = pc.y_vals.length ∧ pc.x_vals.length = pc.z_vals.length) ∨
  ((pc.x_normals.length ≠ 0 ∨ pc.y_normals.length ≠ 0 ∨ pc.z_normals.length ≠ 0) ∧
    (pc.x_normals.length ≠ pc.x_vals.length ∨ pc.y_normals.length ≠ pc.x_vals.length ∨
      pc.z_normals.length ≠ pc.x_vals.length))

instance {T : Type} (pc : PointCloud T) : Decidable (specAbortCondition pc) := by
  unfold specAbortCondition; infer_instance

/-- The datatype record of three `float` entries at bytes 0, 4, 8 with lower bound
0 and extent 12. -/
def pointDatatype (committed : Bool) : Datatype :=
  { typemap := [(.float, 0), (.float, 4), (.float, 8)], lb := 0, extent := 12,
    committed := committed }

/-- The calls the first `getMpiDatatype` makes when `k` derived datatypes exist
already and no call reports an error. -/
def firstCallLog (k : Nat) : List MpiCall :=
  [.typeCreateStruct 3 [1, 1, 1] [0, 4, 8] [MPI_FLOAT, MPI_FLOAT, MPI_FLOAT],
   .typeGetExtent (.derived k),
   .typeCreateResized (.derived k) 0 12,
   .typeCommit (.derived (k + 1))]

/-- The three blocks `getMpiDatatype` passes to `MPI_Type_create_struct`, resolved:
one `MPI_FLOAT` at each of the bytes 0, 4, 8. -/
def pointBlocks : List (Nat × Int × Datatype) :=
  [(1, 0, { typemap := [(.float, 0)], lb := 0, extent := 4, committed := true }),
   (1, 4, { typemap := [(.float, 0)], lb := 0, extent := 4, committed := true }),
   (1, 8, { typemap := [(.float, 0)], lb := 0, extent := 4, committed := true })]

/-- A communication layer in which nothing has been created or called yet, with
the default error handler and no failing function. -/
def mpiFresh : MpiEnv := { derived := [], log := [], errorsAreFatal := true, failing := [] }

/-- A communication layer with the handler `MPI_ERRORS_RETURN` in which
`MPI_Type_commit` reports an error. -/
def mpiCommitFailsReturn : MpiEnv :=
  { derived := [], log := [], errorsAreFatal := false, failing := [.typeCommit] }

/-- A communication layer with the default handler `MPI_ERRORS_ARE_FATAL` in which
`MPI_Type_commit` reports an error. -/
def mpiCommitFailsFatal : MpiEnv :=
  { derived := [], log := [], errorsAreFatal := true, failing := [.typeCommit] }

/-! ## Auxiliary facts -/

theorem vecGet_of_lt {T : Type} (v : List T) (i : Nat) (h : i < v.length) :
    vecGet v i = .ok v[i] := by
  simp [vecGet, List.getElem?_eq_getElem h]

theorem vecSet_of_lt {T : Type} (v : List T) (i : Nat) (a : T) (h : i < v.length) :
    vecSet v i a = .ok (v.set i a) := by
  simp [vecSet, h]

theorem resize_nil {T : Type} (n : Nat) (d : T) : resize [] n d = List.replicate n d := by
  simp [resize]

/-- Writing entry `i` of a column whose tail is still to be filled. -/
theorem column_step {A B : Type} (f : A → B) (src : List A) (col : List B) (i : Nat)
    (hs : i < src.length) (hc : i < col.length) :
    (col.set i (f src[i])).take (i + 1) ++ (src.drop (i + 1)).map f
      = col.take i ++ (src.drop i).map f := by
  have h1 : (col.set i (f src[i])).take (i + 1) = col.take i ++ [f src[i]] := by
    rw [List.take_succ, List.getElem?_set_self hc, List.set_take]
    rw [List.set_eq_of_length_le (by simp)]
    rfl
  rw [h1, List.drop_eq_getElem_cons hs, List.map_cons, List.append_assoc]
  rfl

theorem ctorLoop_eq {F T : Type} (conv : F → T) (points normals : List (Point F)) :
    ∀ (todo i : Nat) (pc : PointCloud T),
      points.length = i + todo → normals.length = i + todo →
      pc.x_vals.length = i + todo → pc.y_vals.length = i + todo →
      pc.z_vals.length = i + todo → pc.x_normals.length = i + todo →
      pc.y_normals.length = i + todo → pc.z_normals.length = i + todo →
      ctorLoop conv points normals todo i pc = .ok (filledFrom conv points normals i pc) := by
  intro todo
  induction todo with
  | zero =>
    intro i pc hp hn h1 h2 h3 h4 h5 h6
    simp only [Nat.add_zero] at hp hn h1 h2 h3 h4 h5 h6
    have e1 : ∀ (l : List (Point F)) (g : Point F → T), l.length = i →
        (l.drop i).map g = [] := by
      intro l g hl; rw [List.drop_of_length_le (by omega)]; rfl
    have e2 : ∀ (l : List T), l.length = i → l.take i = l := by
      intro l hl; exact List.take_of_length_le (by omega)
    simp only [ctorLoop, filledFrom, e1 _ _ hp, e1 _ _ hn, e2 _ h1, e2 _ h2, e2 _ h3,
      e2 _ h4, e2 _ h5, e2 _ h6, List.append_nil]
    rfl
  | succ todo ih =>
    intro i pc hp hn h1 h2 h3 h4 h5 h6
    have hip : i < points.length := by omega
    have hin : i < normals.length := by omega
    have b : ctorBody conv points normals i pc = .ok
        { x_vals := pc.x_vals.set i (conv points[i].x),
          y_vals := pc.y_vals.set i (conv points[i].y),
          z_vals := pc.z_vals.set i (conv points[i].z),
          x_normals := pc.x_normals.set i (conv normals[i].x),
          y_normals := pc.y_normals.set i (conv normals[i].y),
          z_normals := pc.z_normals.set i (conv normals[i].z) } := by
      simp only [ctorBody, vecGet_of_lt _ _ hip, vecGet_of_lt _ _ hin,
        vecSet_of_lt _ _ _ (show i < pc.x_vals.length by omega),
        vecSet_of_lt _ _ _ (show i < pc.y_vals.length by omega),
        vecSet_of_lt _ _ _ (show i < pc.z_vals.length by omega),
        vecSet_of_lt _ _ _ (show i < pc.x_normals.length by omega),
        vecSet_of_lt _ _ _ (show i < pc.y_normals.length by omega),
        vecSet_of_lt _ _ _ (show i < pc.z_normals.length by omega)]
      rfl
    have step : ctorLoop conv points normals (todo + 1) i pc
        = (ctorBody conv points normals i pc).bind
            (fun pc1 => ctorLoop conv points normals todo (i + 1) pc1) := rfl
    rw [step, b]
    show ctorLoop conv points normals todo (i + 1) _ = _
    rw [ih (i + 1) _ (by omega) (by omega) (by simp; omega) (by simp; omega) (by simp; omega)
      (by simp; omega) (by simp; omega) (by simp; omega)]
    simp only [filledFrom]
    rw [column_step (fun p => conv p.x) points pc.x_vals i hip (by omega),
      column_step (fun p => conv p.y) points pc.y_vals i hip (by omega),
      column_step (fun p => conv p.z) points pc.z_vals i hip (by omega),
      column_step (fun p => conv p.x) normals pc.x_normals i hin (by omega),
      column_step (fun p => conv p.y) normals pc.y_normals i hin (by omega),
      column_step (fun p => conv p.z) normals pc.z_normals i hin (by omega)]

theorem ctor_eq {F T : Type} (conv : F → T) (d : T) (points normals : List (Point F))
    (h : points.length = normals.length) :
    PointCloud.ctor conv d points normals = .ok (columnsOf conv points normals) := by
  have ha : assert (points.length == normals.length) = .ok () := by
    simp [assert, h]
  have hdef : PointCloud.ctor conv d points normals
      = (assert (points.length == normals.length)).bind (fun _ =>
          ctorLoop conv points normals points.length 0
            { x_vals := resize [] points.length d, y_vals := resize [] points.length d,
              z_vals := resize [] points.length d, x_normals := resize [] points.length d,
              y_normals := resize [] points.length d,
              z_normals := resize [] points.length d }) := rfl
  rw [hdef, ha]
  show ctorLoop conv points normals points.length 0 _ = _
  rw [ctorLoop_eq conv points normals points.length 0 _ (by simp) (by simp [h])
    (by simp [resize_nil]) (by simp [resize_nil]) (by simp [resize_nil])
    (by simp [resize_nil]) (by simp [resize_nil]) (by simp [resize_nil])]
  simp [filledFrom, columnsOf]

theorem ctor_mismatch {F T : Type} (conv : F → T) (d : T) (points normals : List (Point F))
    (h : points.length ≠ normals.length) :
    PointCloud.ctor conv d points normals = .error .assertFailed := by
  have ha : assert (points.length == normals.length) = .error .assertFailed := by
    simp [assert, h]
  have hdef : PointCloud.ctor conv d points normals
      = (assert (points.length == normals.length)).bind (fun _ =>
          ctorLoop conv points normals points.length 0
            { x_vals := resize [] points.length d, y_vals := resize [] points.length d,
              z_vals := resize [] points.length d, x_normals := resize [] points.length d,
              y_normals := resize [] points.length d,
              z_normals := resize [] points.length d }) := rfl
  rw [hdef, ha]
  rfl

theorem unlines_append (xs ys : List String) : unlines (xs ++ ys) = unlines xs ++ unlines ys := by
  induction xs with
  | nil => simp [unlines]
  | cons x xs ih => simp [unlines, ih, String.append_assoc]

theorem assert_beq (a b : Nat) :
    assert (a == b) = if a = b then .ok () else .error .assertFailed := by
  by_cases h : a = b <;> simp [assert, h]

theorem plyChecks_eq {T : Type} (pc : PointCloud T) :
    plyChecks pc =
      if pc.x_vals.length = pc.y_vals.length ∧ pc.x_vals.length = pc.z_vals.length ∧
        (pc.x_normals.length ≠ 0 →
          pc.x_vals.length = pc.x_normals.length ∧ pc.x_vals.length = pc.y_normals.length ∧
          pc.x_vals.length = pc.z_normals.length)
      then .ok () else .error .assertFailed := by
  unfold plyChecks
  simp only [assert_beq, bind, Except.bind, pure, Except.pure, bne_iff_ne, ne_eq,
    ite_not]
  generalize pc.x_vals.length = a
  generalize pc.y_vals.length = b
  generalize pc.z_vals.length = c
  generalize pc.x_normals.length = d
  generalize pc.y_normals.length = e
  generalize pc.z_normals.length = f
  by_cases h1 : a = b
  · subst h1
    by_cases h2 : a = c
    · subst h2
      by_cases h3 : d = 0
      · subst h3
        simp
      · by_cases h4 : a = d
        · subst h4
          by_cases h5 : a = e
          · subst h5
            by_cases h6 : a = f
            · subst h6
              simp [h3]
            · simp [h3, h6]
          · simp [h3, h5]
        · simp [h3, h4]
    · simp [h2]
  · simp [h1]
theorem plyRow_of_lt {T : Type} (pc : PointCloud T) (i : Nat)
    (hx : i < pc.x_vals.length) (hy : i < pc.y_vals.length) (hz : i < pc.z_vals.length)
    (hn : hasNormals pc = true → i < pc.x_normals.length ∧ i < pc.y_normals.length ∧
      i < pc.z_normals.length) :
    ∃ vals : List T, plyRow pc i = vals.map some ∧
      vals.length = (if hasNormals pc then 6 else 3) ∧
      (plyRow pc i).reduceOption = vals := by
  cases hb : hasNormals pc with
  | false =>
    refine ⟨[pc.x_vals[i], pc.y_vals[i], pc.z_vals[i]], ?_, ?_, ?_⟩
    · simp [plyRow, hb, List.getElem?_eq_getElem, hx, hy, hz]
    · simp
    · simp [plyRow, hb, List.getElem?_eq_getElem, hx, hy, hz, List.reduceOption]
  | true =>
    obtain ⟨h1, h2, h3⟩ := hn hb
    refine ⟨[pc.x_vals[i], pc.y_vals[i], pc.z_vals[i],
      pc.x_normals[i], pc.y_normals[i], pc.z_normals[i]], ?_, ?_, ?_⟩
    · simp [plyRow, hb, List.getElem?_eq_getElem, hx, hy, hz, h1, h2, h3]
    · simp
    · simp [plyRow, hb, List.getElem?_eq_getElem, hx, hy, hz, h1, h2, h3, List.reduceOption]

theorem plyBodyLoop_eq {T : Type} (fmt : T → String) (pc : PointCloud T) :
    ∀ (todo i : Nat) (out : String),
      i + todo ≤ pc.x_vals.length → i + todo ≤ pc.y_vals.length →
      i + todo ≤ pc.z_vals.length →
      (hasNormals pc = true → i + todo ≤ pc.x_normals.length ∧
        i + todo ≤ pc.y_normals.length ∧ i + todo ≤ pc.z_normals.length) →
      plyBodyLoop fmt pc (hasNormals pc) todo i out
        = .ok (out ++ unlines ((List.range' i todo).map fun j =>
            spaced ((plyRow pc j).reduceOption.map fmt))) := by
  intro todo
  induction todo with
  | zero =>
    intro i out _ _ _ _
    simp [plyBodyLoop, unlines, pure, Except.pure]
  | succ todo ih =>
    intro i out hx hy hz hn
    have hx1 : i < pc.x_vals.length := by omega
    have hy1 : i < pc.y_vals.length := by omega
    have hz1 : i < pc.z_vals.length := by omega
    rw [List.range'_succ, List.map_cons, unlines]
    cases hb : hasNormals pc with
    | false =>
      rw [hb] at ih
      have hrow : (plyRow pc i).reduceOption = [pc.x_vals[i], pc.y_vals[i], pc.z_vals[i]] := by
        simp [plyRow, hb, List.getElem?_eq_getElem, hx1, hy1, hz1, List.reduceOption]
      simp only [plyBodyLoop, vecGet_of_lt _ _ hx1, vecGet_of_lt _ _ hy1, vecGet_of_lt _ _ hz1,
        bind, Except.bind, pure, Except.pure, Bool.false_eq_true, if_false]
      rw [ih (i + 1) _ (by omega) (by omega) (by omega) (by intro h; cases h)]
      simp [hrow, spaced, endl, String.append_assoc]
    | true =>
      rw [hb] at ih
      obtain ⟨h1, h2, h3⟩ := hn hb
      have g1 : i < pc.x_normals.length := by omega
      have g2 : i < pc.y_normals.length := by omega
      have g3 : i < pc.z_normals.length := by omega
      have hrow : (plyRow pc i).reduceOption = [pc.x_vals[i], pc.y_vals[i], pc.z_vals[i],
          pc.x_normals[i], pc.y_normals[i], pc.z_normals[i]] := by
        simp [plyRow, hb, List.getElem?_eq_getElem, hx1, hy1, hz1, g1, g2, g3,
          List.reduceOption]
      simp only [plyBodyLoop, vecGet_of_lt _ _ hx1, vecGet_of_lt _ _ hy1, vecGet_of_lt _ _ hz1,
        vecGet_of_lt _ _ g1, vecGet_of_lt _ _ g2, vecGet_of_lt _ _ g3,
        bind, Except.bind, pure, Except.pure, if_true]
      rw [ih (i + 1) _ (by omega) (by omega) (by omega) (by intro _; omega)]
      simp [hrow, spaced, endl, String.append_assoc]
theorem plyHeader_eq {T : Type} (pc : PointCloud T) :
    plyHeader pc (hasNormals pc) "" = unlines (plyHeaderLines pc) := by
  generalize hn : toString pc.x_vals.length = n
  cases hb : hasNormals pc <;>
    simp only [plyHeader, plyHeaderLines, hb, hn, unlines, endl, String.append_assoc,
      String.empty_append, String.append_empty, List.append_nil, List.cons_append,
      List.nil_append, if_true, if_false, Bool.false_eq_true]

theorem saveAsPly_unfold {T : Type} (fmt : T → String) (pc : PointCloud T) (filename : String)
    (fs : FileSystem) :
    saveAsPly fmt pc filename fs =
      (plyChecks pc).bind fun _ =>
        if fs.openable filename = true then
          (plyBodyLoop fmt pc (hasNormals pc) pc.x_vals.length 0
              (plyHeader pc (hasNormals pc) "")).bind
            fun out => .ok (true, fs.store filename out)
        else .ok (false, fs) := by
  unfold saveAsPly saveAsPlyEffect
  cases plyChecks pc with
  | error e => rfl
  | ok u =>
    cases h : fs.openable filename with
    | false => simp [Except.bind]
    | true =>
      simp only [Bool.not_true, Bool.false_eq_true, if_false, if_true, Except.bind]
      show (match (match plyBodyLoop fmt pc (hasNormals pc) pc.x_vals.length 0
          (plyHeader pc (hasNormals pc) "") with
        | .error e => (fs.store filename (plyHeader pc (hasNormals pc) ""), Except.error e)
        | .ok out => (fs.store filename out, Except.ok true)) with
        | (fs1, .ok b) => Except.ok (b, fs1)
        | (_, .error e) => Except.error e) = _
      cases plyBodyLoop fmt pc (hasNormals pc) pc.x_vals.length 0
        (plyHeader pc (hasNormals pc) "") <;> rfl

theorem saveAsPly_abort {T : Type} (fmt : T → String) (pc : PointCloud T) (filename : String)
    (fs : FileSystem) (e : Fault) (h : plyChecks pc = .error e) :
    saveAsPly fmt pc filename fs = .error e := by
  rw [saveAsPly_unfold, h]; rfl

theorem saveAsPly_closed {T : Type} (fmt : T → String) (pc : PointCloud T) (filename : String)
    (fs : FileSystem) (h : plyChecks pc = .ok ()) (ho : fs.openable filename = false) :
    saveAsPly fmt pc filename fs = .ok (false, fs) := by
  rw [saveAsPly_unfold, h]; simp [Except.bind, ho]

theorem saveAsPly_open {T : Type} (fmt : T → String) (pc : PointCloud T) (filename : String)
    (fs : FileSystem) (h : plyChecks pc = .ok ()) (ho : fs.openable filename = true) :
    saveAsPly fmt pc filename fs = .ok (true, fs.store filename (plyText fmt pc)) := by
  rw [plyChecks_eq] at h
  split at h
  · rename_i hc
    obtain ⟨h1, h2, h3⟩ := hc
    rw [saveAsPly_unfold, plyChecks_eq, if_pos ⟨h1, h2, h3⟩]
    simp only [Except.bind, ho, if_true]
    rw [plyBodyLoop_eq fmt pc pc.x_vals.length 0 _ (by omega) (by omega) (by omega)
      (by
        intro hb
        have : pc.x_normals.length ≠ 0 := by simpa [hasNormals] using hb
        have := h3 this
        omega)]
    simp only [plyHeader_eq, plyText, unlines_append, plyBodyLines, List.range_eq_range']
  · cases h

theorem saveAsPly_returns {T : Type} (fmt : T → String) (pc : PointCloud T) (filename : String)
    (fs : FileSystem) (h : plyChecks pc = .ok ()) :
    ∃ r, saveAsPly fmt pc filename fs = .ok r := by
  cases ho : fs.openable filename with
  | false => exact ⟨_, saveAsPly_closed fmt pc filename fs h ho⟩
  | true => exact ⟨_, saveAsPly_open fmt pc filename fs h ho⟩

theorem plyChecks_of_lengths {T : Type} (pc : PointCloud T) (N : Nat)
    (h1 : pc.x_vals.length = N) (h2 : pc.y_vals.length = N) (h3 : pc.z_vals.length = N)
    (h4 : pc.x_normals.length = N) (h5 : pc.y_normals.length = N)
    (h6 : pc.z_normals.length = N) : plyChecks pc = .ok () := by
  rw [plyChecks_eq, if_pos]
  refine ⟨by omega, by omega, fun _ => ⟨by omega, by omega, by omega⟩⟩

theorem splitLines_line (l rest : List Char) (h : '\n' ∉ l) :
    splitLines (l ++ '\n' :: rest) = l :: splitLines rest := by
  induction l with
  | nil => simp [splitLines]
  | cons c l ih =>
    have hc : c ≠ '\n' := fun e => h (by simp [e])
    have hl : '\n' ∉ l := fun e => h (by simp [e])
    simp [splitLines, hc, ih hl]

theorem digitChar_ne_newline (k : Nat) (hk : k < 10) : Nat.digitChar k ≠ '\n' := by
  interval_cases k <;> decide

theorem toDigitsCore_no_newline : ∀ (fuel n : Nat) (ds : List Char),
    '\n' ∉ ds → '\n' ∉ Nat.toDigitsCore 10 fuel n ds := by
  intro fuel
  induction fuel with
  | zero => intro n ds h; simpa [Nat.toDigitsCore] using h
  | succ fuel ih =>
    intro n ds h
    have hd : '\n' ∉ Nat.digitChar (n % 10) :: ds := by
      intro hm
      rcases List.mem_cons.mp hm with e | e
      · exact digitChar_ne_newline (n % 10) (Nat.mod_lt _ (by decide)) e.symm
      · exact h e
    unfold Nat.toDigitsCore
    simp only
    split
    · exact hd
    · exact ih _ _ hd

theorem toString_nat_no_newline (n : Nat) : '\n' ∉ (toString n).data := by
  show '\n' ∉ (Nat.repr n).data
  unfold Nat.repr Nat.toDigits
  exact toDigitsCore_no_newline _ _ _ (by simp)

theorem plyHeaderLines_no_newline {T : Type} (pc : PointCloud T) :
    ∀ l ∈ plyHeaderLines pc, '\n' ∉ l.data := by
  have hN := toString_nat_no_newline pc.x_vals.length
  have hv : '\n' ∉ ("element vertex " ++ toString pc.x_vals.length).data := by
    rw [String.data_append]
    intro hm
    rcases List.mem_append.mp hm with e | e
    · revert e; decide
    · exact hN e
  unfold plyHeaderLines
  cases hasNormals pc
  · simp only [Bool.false_eq_true, if_false, List.append_nil, List.cons_append,
      List.nil_append, List.forall_mem_cons]
    exact ⟨by decide, by decide, hv, by decide, by decide, by decide, by decide, by simp⟩
  · simp only [if_true, List.cons_append, List.nil_append, List.forall_mem_cons]
    exact ⟨by decide, by decide, hv, by decide, by decide, by decide, by decide, by decide,
      by decide, by decide, by simp⟩

theorem spaced_no_newline (ss : List String) (h : ∀ s ∈ ss, '\n' ∉ s.data) :
    '\n' ∉ (spaced ss).data := by
  induction ss with
  | nil => simp [spaced]
  | cons s rest ih =>
    have hs : '\n' ∉ s.data := h s (by simp)
    have hr : '\n' ∉ (spaced rest).data := ih (fun t ht => h t (by simp [ht]))
    cases rest with
    | nil => simpa [spaced] using hs
    | cons r rest2 =>
      simp only [spaced, String.data_append, List.mem_append, not_or]
      refine ⟨⟨hs, by decide⟩, ?_⟩
      simpa [spaced] using hr

theorem textLines_unlines_append (ls : List String) (rest : String)
    (h : ∀ l ∈ ls, '\n' ∉ l.data) :
    textLines (unlines ls ++ rest) = ls ++ textLines rest := by
  induction ls with
  | nil => simp [unlines]
  | cons l ls ih =>
    have h1 : '\n' ∉ l.data := h l (by simp)
    have ih2 := ih (fun t ht => h t (by simp [ht]))
    unfold textLines at ih2 ⊢
    have e : (unlines (l :: ls) ++ rest).data
        = l.data ++ '\n' :: (unlines ls ++ rest).data := by
      simp [unlines, String.data_append]
    rw [e, splitLines_line _ _ h1, List.map_cons, ih2]
    rfl

theorem plyBodyLines_length {T : Type} (fmt : T → String) (pc : PointCloud T) :
    (plyBodyLines fmt pc).length = pc.x_vals.length := by
  simp [plyBodyLines]

theorem plyBodyLines_getElem? {T : Type} (fmt : T → String) (pc : PointCloud T) (i : Nat)
    (hi : i < pc.x_vals.length) :
    (plyBodyLines fmt pc)[i]? = some (spaced ((plyRow pc i).reduceOption.map fmt)) := by
  simp [plyBodyLines, List.getElem?_map, List.getElem?_range hi]

theorem plyChecks_bounds {T : Type} (pc : PointCloud T) (h : plyChecks pc = .ok ()) :
    pc.x_vals.length = pc.y_vals.length ∧ pc.x_vals.length = pc.z_vals.length ∧
      (pc.x_normals.length ≠ 0 →
        pc.x_vals.length = pc.x_normals.length ∧ pc.x_vals.length = pc.y_normals.length ∧
        pc.x_vals.length = pc.z_normals.length) := by
  rw [plyChecks_eq] at h
  split at h
  · assumption
  · cases h

theorem plyRow_checked {T : Type} (pc : PointCloud T) (h : plyChecks pc = .ok ()) (i : Nat)
    (hi : i < pc.x_vals.length) :
    ∃ vals : List T, plyRow pc i = vals.map some ∧
      vals.length = (if hasNormals pc then 6 else 3) ∧
      (plyRow pc i).reduceOption = vals := by
  obtain ⟨h1, h2, h3⟩ := plyChecks_bounds pc h
  apply plyRow_of_lt pc i hi (by omega) (by omega)
  intro hb
  have : pc.x_normals.length ≠ 0 := by simpa [hasNormals] using hb
  have := h3 this
  omega

theorem plyBodyLines_no_newline {T : Type} (fmt : T → String) (pc : PointCloud T)
    (hf : ∀ t, '\n' ∉ (fmt t).data) : ∀ l ∈ plyBodyLines fmt pc, '\n' ∉ l.data := by
  intro l hl
  simp only [plyBodyLines, List.mem_map] at hl
  obtain ⟨i, _, rfl⟩ := hl
  apply spaced_no_newline
  intro s hs
  obtain ⟨t, _, rfl⟩ := List.mem_map.mp hs
  exact hf t

theorem store_content (fs : FileSystem) (path text : String) :
    (fs.store path text).content path = some text := by
  simp [FileSystem.store]

theorem plyChecks_error {T : Type} (pc : PointCloud T) (h : plyChecks pc ≠ .ok ()) :
    plyChecks pc = .error .assertFailed := by
  rw [plyChecks_eq] at h ⊢
  split
  · rename_i hc; rw [if_pos hc] at h; exact absurd rfl h
  · rfl

theorem plyChecks_ok_iff {T : Type} (pc : PointCloud T) :
    plyChecks pc = .ok () ↔
      ¬ (¬ (pc.x_vals.length = pc.y_vals.length ∧ pc.x_vals.length = pc.z_vals.length) ∨
       (pc.x_normals.length ≠ 0 ∧
        (pc.x_normals.length ≠ pc.x_vals.length ∨ pc.y_normals.length ≠ pc.x_vals.length ∨
          pc.z_normals.length ≠ pc.x_vals.length))) := by
  constructor
  · intro hc
    obtain ⟨h1, h2, h3⟩ := plyChecks_bounds pc hc
    rintro (h | ⟨hx, h⟩)
    · exact h ⟨h1, h2⟩
    · have := h3 hx
      omega
  · intro hcon
    rw [plyChecks_eq, if_pos]
    push_neg at hcon
    obtain ⟨⟨a, b⟩, c⟩ := hcon
    refine ⟨a, b, fun hx => ?_⟩
    have := c hx
    omega

theorem mpiError_ok {α : Type} (e : MpiEnv) (r : Option α) (e1 : MpiEnv)
    (h : mpiError e = .ok (r, e1)) : r = none ∧ e1 = e := by
  unfold mpiError at h
  split at h
  · cases h
  · cases h; exact ⟨rfl, rfl⟩

theorem MPI_Type_create_struct_log (e : MpiEnv) (count : Nat) (bl : List Nat) (ds : List Int)
    (ts : List Handle) (r : Option Handle) (e1 : MpiEnv)
    (h : MPI_Type_create_struct e count bl ds ts = .ok (r, e1)) :
    e1.log = e.log ++ [.typeCreateStruct count bl ds ts] := by
  unfold MPI_Type_create_struct at h
  simp only at h
  split at h
  · obtain ⟨_, rfl⟩ := mpiError_ok _ _ _ h; rfl
  · split at h
    · obtain ⟨_, rfl⟩ := mpiError_ok _ _ _ h; rfl
    · cases h; rfl

theorem MPI_Type_get_extent_log (e : MpiEnv) (t : Handle) (r : Option (Int × Int))
    (e1 : MpiEnv) (h : MPI_Type_get_extent e t = .ok (r, e1)) :
    e1.log = e.log ++ [.typeGetExtent t] := by
  unfold MPI_Type_get_extent at h
  simp only at h
  split at h
  · obtain ⟨_, rfl⟩ := mpiError_ok _ _ _ h; rfl
  · split at h
    · obtain ⟨_, rfl⟩ := mpiError_ok _ _ _ h; rfl
    · cases h; rfl

theorem MPI_Type_create_resized_log (e : MpiEnv) (t : Handle) (lb ext : Int)
    (r : Option Handle) (e1 : MpiEnv)
    (h : MPI_Type_create_resized e t lb ext = .ok (r, e1)) :
    e1.log = e.log ++ [.typeCreateResized t lb ext] := by
  unfold MPI_Type_create_resized at h
  simp only at h
  split at h
  · obtain ⟨_, rfl⟩ := mpiError_ok _ _ _ h; rfl
  · split at h
    · obtain ⟨_, rfl⟩ := mpiError_ok _ _ _ h; rfl
    · cases h; rfl

theorem MPI_Type_commit_log (e : MpiEnv) (t : Handle) (r : Option Unit) (e1 : MpiEnv)
    (h : MPI_Type_commit e t = .ok (r, e1)) :
    e1.log = e.log ++ [.typeCommit t] := by
  unfold MPI_Type_commit at h
  simp only at h
  split at h
  · obtain ⟨_, rfl⟩ := mpiError_ok _ _ _ h; rfl
  · split at h
    · cases h; rfl
    · cases h; rfl
    · obtain ⟨_, rfl⟩ := mpiError_ok _ _ _ h; rfl

theorem getMpiDatatype_initialized (s : ProcState) (hs : s.mpi_datatype_initialized = true) :
    getMpiDatatype s = .ok (s.mpi_datatype, s) := by
  simp [getMpiDatatype, hs, pure, Except.pure]

theorem getMpiDatatype_first (s : ProcState) (h : Handle) (s1 : ProcState)
    (hs : s.mpi_datatype_initialized = false) (hr : getMpiDatatype s = .ok (h, s1)) :
    s1.mpi_datatype_initialized = true ∧ s1.mpi_datatype = h ∧
    ∃ (struct_type : Handle) (lb extent : Int),
      s1.mpi.log = s.mpi.log ++
        [.typeCreateStruct 3 [1, 1, 1] [offsetof_x, offsetof_y, offsetof_z]
            [MPI_FLOAT, MPI_FLOAT, MPI_FLOAT],
          .typeGetExtent struct_type,
          .typeCreateResized struct_type lb extent,
          .typeCommit h] := by
  simp only [getMpiDatatype, hs, Bool.not_false, if_true, bind, Except.bind] at hr
  cases h1 : MPI_Type_create_struct s.mpi 3 [1, 1, 1] [offsetof_x, offsetof_y, offsetof_z]
      [MPI_FLOAT, MPI_FLOAT, MPI_FLOAT] with
  | error f => rw [h1] at hr; cases hr
  | ok p1 =>
    obtain ⟨r1, e1⟩ := p1
    rw [h1] at hr
    simp only at hr
    cases h2 : readLocal r1 with
    | error f => rw [h2] at hr; cases hr
    | ok st =>
      rw [h2] at hr
      simp only at hr
      cases h3 : MPI_Type_get_extent e1 st with
      | error f => rw [h3] at hr; cases hr
      | ok p3 =>
        obtain ⟨r3, e3⟩ := p3
        rw [h3] at hr
        simp only at hr
        cases h4 : readLocal r3 with
        | error f => rw [h4] at hr; cases hr
        | ok b =>
          obtain ⟨lb, ext⟩ := b
          rw [h4] at hr
          simp only at hr
          cases h5 : MPI_Type_create_resized e3 st lb ext with
          | error f => rw [h5] at hr; cases hr
          | ok p5 =>
            obtain ⟨r5, e5⟩ := p5
            rw [h5] at hr
            simp only at hr
            cases h6 : MPI_Type_commit e5 (r5.getD s.mpi_datatype) with
            | error f => rw [h6] at hr; cases hr
            | ok p6 =>
              obtain ⟨r6, e6⟩ := p6
              rw [h6] at hr
              simp only [pure, Except.pure, Except.ok.injEq, Prod.mk.injEq] at hr
              obtain ⟨rfl, rfl⟩ := hr
              refine ⟨rfl, rfl, st, lb, ext, ?_⟩
              simp only
              rw [MPI_Type_commit_log _ _ _ _ h6, MPI_Type_create_resized_log _ _ _ _ _ _ h5,
                MPI_Type_get_extent_log _ _ _ _ h3, MPI_Type_create_struct_log _ _ _ _ _ _ _ h1]
              simp

theorem callGetMpiDatatype_initialized (n : Nat) (s : ProcState)
    (hs : s.mpi_datatype_initialized = true) :
    callGetMpiDatatype n s = .ok (List.replicate n s.mpi_datatype, s) := by
  induction n with
  | zero => rfl
  | succ n ih =>
    simp only [callGetMpiDatatype, getMpiDatatype_initialized s hs, ih, bind, Except.bind,
      pure, Except.pure, List.replicate_succ]

theorem create_struct_point (derived : List Datatype) (log : List MpiCall) (fatal : Bool) :
    MPI_Type_create_struct
        { derived := derived, log := log, errorsAreFatal := fatal, failing := [] }
        3 [1, 1, 1] [(offsetof_x : Int), offsetof_y, offsetof_z]
        [MPI_FLOAT, MPI_FLOAT, MPI_FLOAT]
      = .ok (some (.derived derived.length),
          { derived := derived ++ [pointDatatype false],
            log := log ++ [.typeCreateStruct 3 [1, 1, 1] [0, 4, 8]
              [MPI_FLOAT, MPI_FLOAT, MPI_FLOAT]],
            errorsAreFatal := fatal, failing := [] }) := by
  have hb : ∀ e : MpiEnv, resolveBlocks e 3 [1, 1, 1]
        [(offsetof_x : Int), offsetof_y, offsetof_z] [MPI_FLOAT, MPI_FLOAT, MPI_FLOAT]
      = some pointBlocks := fun _ => rfl
  have h1 : structTypemap pointBlocks = [(.float, 0), (.float, 4), (.float, 8)] := by decide
  have h2 : typemapLb [(BasicType.float, 0), (BasicType.float, 4), (BasicType.float, 8)] = 0 := by
    decide
  have h3 : typemapExtent [(BasicType.float, 0), (BasicType.float, 4), (BasicType.float, 8)]
      = 12 := by decide
  have ho : [(offsetof_x : Int), offsetof_y, offsetof_z] = [0, 4, 8] := by decide
  unfold MPI_Type_create_struct
  simp only [List.not_mem_nil, if_false, hb, h1, h2, h3]
  rw [ho]
  rfl

theorem get_extent_point (pre : List Datatype) (log : List MpiCall) (fatal : Bool) :
    MPI_Type_get_extent
        { derived := pre ++ [pointDatatype false], log := log, errorsAreFatal := fatal,
          failing := [] } (.derived pre.length)
      = .ok (some (0, 12),
          { derived := pre ++ [pointDatatype false],
            log := log ++ [.typeGetExtent (.derived pre.length)],
            errorsAreFatal := fatal, failing := [] }) := by
  unfold MPI_Type_get_extent
  simp [MpiEnv.lookup, pointDatatype]

theorem create_resized_point (pre : List Datatype) (log : List MpiCall) (fatal : Bool) :
    MPI_Type_create_resized
        { derived := pre ++ [pointDatatype false], log := log, errorsAreFatal := fatal,
          failing := [] } (.derived pre.length) 0 12
      = .ok (some (.derived (pre.length + 1)),
          { derived := pre ++ [pointDatatype false, pointDatatype false],
            log := log ++ [.typeCreateResized (.derived pre.length) 0 12],
            errorsAreFatal := fatal, failing := [] }) := by
  unfold MPI_Type_create_resized
  simp [MpiEnv.lookup, pointDatatype]

theorem commit_point (pre : List Datatype) (log : List MpiCall) (fatal : Bool) :
    MPI_Type_commit
        { derived := pre ++ [pointDatatype false, pointDatatype false], log := log,
          errorsAreFatal := fatal, failing := [] } (.derived (pre.length + 1))
      = .ok (some (),
          { derived := pre ++ [pointDatatype false, pointDatatype true],
            log := log ++ [.typeCommit (.derived (pre.length + 1))],
            errorsAreFatal := fatal, failing := [] }) := by
  have hl : (pre ++ [pointDatatype false, pointDatatype false])[pre.length + 1]?
      = some (pointDatatype false) := by
    rw [List.getElem?_append_right (by omega)]
    simp
  have hset : (pre ++ [pointDatatype false, pointDatatype false]).set (pre.length + 1)
      { pointDatatype false with committed := true }
      = pre ++ [pointDatatype false, pointDatatype true] := by
    rw [List.set_append_right _ _ (by omega)]
    simp [pointDatatype]
  unfold MPI_Type_commit
  simp only [List.not_mem_nil, if_false, MpiEnv.lookup, hl, hset]

theorem getMpiDatatype_healthy (s : ProcState) (hs : s.mpi_datatype_initialized = false)
    (hf : s.mpi.failing = []) :
    getMpiDatatype s = .ok (.derived (s.mpi.derived.length + 1),
      { mpi_datatype_initialized := true,
        mpi_datatype := .derived (s.mpi.derived.length + 1),
        mpi := { s.mpi with
          derived := s.mpi.derived ++ [pointDatatype false, pointDatatype true],
          log := s.mpi.log ++ firstCallLog s.mpi.derived.length } }) := by
  obtain ⟨init, md, ⟨derived, log, fatal, failing⟩⟩ := s
  simp only at hs hf
  subst hs hf
  simp only [getMpiDatatype, Bool.not_false, if_true, bind, Except.bind, create_struct_point,
    readLocal, get_extent_point, create_resized_point, Option.getD_some, commit_point,
    pure, Except.pure, firstCallLog, List.append_assoc, List.singleton_append,
    List.cons_append, List.nil_append]

theorem create_struct_point_ok (derived : List Datatype) (log : List MpiCall) (fatal : Bool)
    (failing : List MpiOp) (hnot : MpiOp.typeCreateStruct ∉ failing) :
    MPI_Type_create_struct
        { derived := derived, log := log, errorsAreFatal := fatal, failing := failing }
        3 [1, 1, 1] [(offsetof_x : Int), offsetof_y, offsetof_z]
        [MPI_FLOAT, MPI_FLOAT, MPI_FLOAT]
      = .ok (some (.derived derived.length),
          { derived := derived ++ [pointDatatype false],
            log := log ++ [.typeCreateStruct 3 [1, 1, 1] [0, 4, 8]
              [MPI_FLOAT, MPI_FLOAT, MPI_FLOAT]],
            errorsAreFatal := fatal, failing := failing }) := by
  have hb : ∀ e : MpiEnv, resolveBlocks e 3 [1, 1, 1]
        [(offsetof_x : Int), offsetof_y, offsetof_z] [MPI_FLOAT, MPI_FLOAT, MPI_FLOAT]
      = some pointBlocks := fun _ => rfl
  have h1 : structTypemap pointBlocks = [(.float, 0), (.float, 4), (.float, 8)] := by decide
  have h2 : typemapLb [(BasicType.float, 0), (BasicType.float, 4), (BasicType.float, 8)] = 0 := by
    decide
  have h3 : typemapExtent [(BasicType.float, 0), (BasicType.float, 4), (BasicType.float, 8)]
      = 12 := by decide
  have ho : [(offsetof_x : Int), offsetof_y, offsetof_z] = [0, 4, 8] := by decide
  unfold MPI_Type_create_struct
  simp only [if_neg hnot, hb, h1, h2, h3]
  rw [ho]
  rfl

theorem get_extent_point_ok (pre : List Datatype) (log : List MpiCall) (fatal : Bool)
    (failing : List MpiOp) (hnot : MpiOp.typeGetExtent ∉ failing) :
    MPI_Type_get_extent
        { derived := pre ++ [pointDatatype false], log := log, errorsAreFatal := fatal,
          failing := failing } (.derived pre.length)
      = .ok (some (0, 12),
          { derived := pre ++ [pointDatatype false],
            log := log ++ [.typeGetExtent (.derived pre.length)],
            errorsAreFatal := fatal, failing := failing }) := by
  unfold MPI_Type_get_extent
  simp [MpiEnv.lookup, pointDatatype, hnot]

theorem create_resized_point_ok (pre : List Datatype) (log : List MpiCall) (fatal : Bool)
    (failing : List MpiOp) (hnot : MpiOp.typeCreateResized ∉ failing) :
    MPI_Type_create_resized
        { derived := pre ++ [pointDatatype false], log := log, errorsAreFatal := fatal,
          failing := failing } (.derived pre.length) 0 12
      = .ok (some (.derived (pre.length + 1)),
          { derived := pre ++ [pointDatatype false, pointDatatype false],
            log := log ++ [.typeCreateResized (.derived pre.length) 0 12],
            errorsAreFatal := fatal, failing := failing }) := by
  unfold MPI_Type_create_resized
  simp [MpiEnv.lookup, pointDatatype, hnot]

theorem commit_point_ok (pre : List Datatype) (log : List MpiCall) (fatal : Bool)
    (failing : List MpiOp) (hnot : MpiOp.typeCommit ∉ failing) :
    MPI_Type_commit
        { derived := pre ++ [pointDatatype false, pointDatatype false], log := log,
          errorsAreFatal := fatal, failing := failing } (.derived (pre.length + 1))
      = .ok (some (),
          { derived := pre ++ [pointDatatype false, pointDatatype true],
            log := log ++ [.typeCommit (.derived (pre.length + 1))],
            errorsAreFatal := fatal, failing := failing }) := by
  have hl : (pre ++ [pointDatatype false, pointDatatype false])[pre.length + 1]?
      = some (pointDatatype false) := by
    rw [List.getElem?_append_right (by omega)]
    simp
  have hset : (pre ++ [pointDatatype false, pointDatatype false]).set (pre.length + 1)
      { pointDatatype false with committed := true }
      = pre ++ [pointDatatype false, pointDatatype true] := by
    rw [List.set_append_right _ _ (by omega)]
    simp [pointDatatype]
  unfold MPI_Type_commit
  simp only [if_neg hnot, MpiEnv.lookup, hl, hset]

theorem commit_failing (e : MpiEnv) (t : Handle) (hin : MpiOp.typeCommit ∈ e.failing) :
    MPI_Type_commit e t =
      if e.errorsAreFatal then .error .mpiAbort
      else .ok (none, { e with log := e.log ++ [.typeCommit t] }) := by
  unfold MPI_Type_commit
  simp only [if_pos hin, mpiError]

theorem create_struct_failing (e : MpiEnv) (count : Nat) (bl : List Nat) (ds : List Int)
    (ts : List Handle) (hin : MpiOp.typeCreateStruct ∈ e.failing)
    (hf : e.errorsAreFatal = true) :
    MPI_Type_create_struct e count bl ds ts = .error .mpiAbort := by
  unfold MPI_Type_create_struct
  simp only [if_pos hin, mpiError, hf, if_true]

theorem get_extent_failing (e : MpiEnv) (t : Handle) (hin : MpiOp.typeGetExtent ∈ e.failing)
    (hf : e.errorsAreFatal = true) :
    MPI_Type_get_extent e t = .error .mpiAbort := by
  unfold MPI_Type_get_extent
  simp only [if_pos hin, mpiError, hf, if_true]

theorem create_resized_failing (e : MpiEnv) (t : Handle) (lb ext : Int)
    (hin : MpiOp.typeCreateResized ∈ e.failing) (hf : e.errorsAreFatal = true) :
    MPI_Type_create_resized e t lb ext = .error .mpiAbort := by
  unfold MPI_Type_create_resized
  simp only [if_pos hin, mpiError, hf, if_true]

/-- The first call when no function of the communication layer is failing. -/
theorem getMpiDatatype_all_ok (s : ProcState) (hs : s.mpi_datatype_initialized = false)
    (h1 : MpiOp.typeCreateStruct ∉ s.mpi.failing) (h2 : MpiOp.typeGetExtent ∉ s.mpi.failing)
    (h3 : MpiOp.typeCreateResized ∉ s.mpi.failing) (h4 : MpiOp.typeCommit ∉ s.mpi.failing) :
    getMpiDatatype s = .ok (.derived (s.mpi.derived.length + 1),
      { mpi_datatype_initialized := true,
        mpi_datatype := .derived (s.mpi.derived.length + 1),
        mpi := { s.mpi with
          derived := s.mpi.derived ++ [pointDatatype false, pointDatatype true],
          log := s.mpi.log ++ firstCallLog s.mpi.derived.length } }) := by
  obtain ⟨init, md, ⟨derived, log, fatal, failing⟩⟩ := s
  simp only at hs h1 h2 h3 h4
  subst hs
  simp only [getMpiDatatype, Bool.not_false, if_true, bind, Except.bind,
    create_struct_point_ok _ _ _ _ h1, readLocal, get_extent_point_ok _ _ _ _ h2,
    create_resized_point_ok _ _ _ _ h3, Option.getD_some, commit_point_ok _ _ _ _ h4,
    pure, Except.pure, firstCallLog, List.append_assoc, List.singleton_append,
    List.cons_append, List.nil_append]

/-- The first call when only `MPI_Type_commit` is failing. -/
theorem getMpiDatatype_commit_failing (s : ProcState)
    (hs : s.mpi_datatype_initialized = false)
    (h1 : MpiOp.typeCreateStruct ∉ s.mpi.failing) (h2 : MpiOp.typeGetExtent ∉ s.mpi.failing)
    (h3 : MpiOp.typeCreateResized ∉ s.mpi.failing) (h4 : MpiOp.typeCommit ∈ s.mpi.failing) :
    getMpiDatatype s =
      if s.mpi.errorsAreFatal then .error .mpiAbort
      else .ok (.derived (s.mpi.derived.length + 1),
        { mpi_datatype_initialized := true,
          mpi_datatype := .derived (s.mpi.derived.length + 1),
          mpi := { s.mpi with
            derived := s.mpi.derived ++ [pointDatatype false, pointDatatype false],
            log := s.mpi.log ++ firstCallLog s.mpi.derived.length } }) := by
  obtain ⟨init, md, ⟨derived, log, fatal, failing⟩⟩ := s
  simp only at hs h1 h2 h3 h4
  subst hs
  simp only [getMpiDatatype, Bool.not_false, if_true, bind, Except.bind,
    create_struct_point_ok _ _ _ _ h1, readLocal, get_extent_point_ok _ _ _ _ h2,
    create_resized_point_ok _ _ _ _ h3, Option.getD_some]
  rw [commit_failing _ _ h4]
  cases fatal
  · simp only [Bool.false_eq_true, if_false, pure, Except.pure, firstCallLog,
      List.append_assoc, List.singleton_append, List.cons_append, List.nil_append]
  · simp only [if_true]

/-- Under `MPI_ERRORS_ARE_FATAL` the first call ends the process as soon as one of
the four functions is failing. -/
theorem getMpiDatatype_fatal_cases (s : ProcState) (hs : s.mpi_datatype_initialized = false)
    (hf : s.mpi.errorsAreFatal = true) :
    (MpiOp.typeCreateStruct ∉ s.mpi.failing ∧ MpiOp.typeGetExtent ∉ s.mpi.failing ∧
      MpiOp.typeCreateResized ∉ s.mpi.failing ∧ MpiOp.typeCommit ∉ s.mpi.failing) ∨
    getMpiDatatype s = .error .mpiAbort := by
  by_cases h1 : MpiOp.typeCreateStruct ∈ s.mpi.failing
  · right
    simp only [getMpiDatatype, hs, Bool.not_false, if_true, bind, Except.bind,
      create_struct_failing _ _ _ _ _ h1 hf]
  · by_cases h2 : MpiOp.typeGetExtent ∈ s.mpi.failing
    · right
      obtain ⟨init, md, ⟨derived, log, fatal, failing⟩⟩ := s
      simp only at hs hf h1 h2
      subst hs hf
      simp only [getMpiDatatype, Bool.not_false, if_true, bind, Except.bind,
        create_struct_point_ok _ _ _ _ h1, readLocal]
      rw [get_extent_failing _ _ h2 rfl]
    · by_cases h3 : MpiOp.typeCreateResized ∈ s.mpi.failing
      · right
        obtain ⟨init, md, ⟨derived, log, fatal, failing⟩⟩ := s
        simp only at hs hf h1 h2 h3
        subst hs hf
        simp only [getMpiDatatype, Bool.not_false, if_true, bind, Except.bind,
          create_struct_point_ok _ _ _ _ h1, readLocal, get_extent_point_ok _ _ _ _ h2]
        rw [create_resized_failing _ _ _ _ h3 rfl]
      · by_cases h4 : MpiOp.typeCommit ∈ s.mpi.failing
        · right
          rw [getMpiDatatype_commit_failing s hs h1 h2 h3 h4, if_pos hf]
        · left
          exact ⟨h1, h2, h3, h4⟩

theorem callGetMpiDatatype_abort (n : Nat) (s : ProcState) (f : Fault)
    (h : getMpiDatatype s = .error f) : callGetMpiDatatype (n + 1) s = .error f := by
  simp only [callGetMpiDatatype, h, bind, Except.bind]

theorem lookup_committed (pre : List Datatype) (log : List MpiCall) (fatal : Bool)
    (failing : List MpiOp) :
    MpiEnv.lookup
        { derived := pre ++ [pointDatatype false, pointDatatype true], log := log,
          errorsAreFatal := fatal, failing := failing } (.derived (pre.length + 1))
      = some (pointDatatype true) := by
  simp only [MpiEnv.lookup]
  rw [List.getElem?_append_right (by omega)]
  simp

theorem columnsOf_checks {F T : Type} (conv : F → T) (points normals : List (Point F))
    (h : points.length = normals.length) : plyChecks (columnsOf conv points normals) = .ok () :=
  plyChecks_of_lengths _ points.length (by simp [columnsOf]) (by simp [columnsOf])
    (by simp [columnsOf]) (by simp [columnsOf, h]) (by simp [columnsOf, h])
    (by simp [columnsOf, h])

theorem columnsOf_row {F T : Type} (conv : F → T) (points normals : List (Point F)) (i : Nat)
    (hp : i < points.length) (hn : i < normals.length) :
    (plyRow (columnsOf conv points normals) i).reduceOption
      = [conv points[i].x, conv points[i].y, conv points[i].z,
         conv normals[i].x, conv normals[i].y, conv normals[i].z] := by
  have hx : hasNormals (columnsOf conv points normals) = true := by
    have : normals.length ≠ 0 := by omega
    simp [hasNormals, columnsOf, this]
  simp only [plyRow, hx, if_true]
  simp [columnsOf, List.getElem?_map, List.getElem?_eq_getElem, hp, hn, List.reduceOption]

theorem saveAsPlyEffect_abort {T : Type} (fmt : T → String) (pc : PointCloud T)
    (filename : String) (fs : FileSystem) (e : Fault) (h : plyChecks pc = .error e) :
    saveAsPlyEffect fmt pc filename fs = (fs, .error e) := by
  unfold saveAsPlyEffect
  rw [h]

theorem saveAsPlyEffect_closed {T : Type} (fmt : T → String) (pc : PointCloud T)
    (filename : String) (fs : FileSystem) (h : plyChecks pc = .ok ())
    (ho : fs.openable filename = false) :
    saveAsPlyEffect fmt pc filename fs = (fs, .ok false) := by
  unfold saveAsPlyEffect
  rw [h]
  simp [ho]

theorem saveAsPlyEffect_open {T : Type} (fmt : T → String) (pc : PointCloud T)
    (filename : String) (fs : FileSystem) (h : plyChecks pc = .ok ())
    (ho : fs.openable filename = true) :
    saveAsPlyEffect fmt pc filename fs = (fs.store filename (plyText fmt pc), .ok true) := by
  obtain ⟨h1, h2, h3⟩ := plyChecks_bounds pc h
  have hloop := plyBodyLoop_eq fmt pc pc.x_vals.length 0 (plyHeader pc (hasNormals pc) "")
    (by omega) (by omega) (by omega)
    (by
      intro hb
      have : pc.x_normals.length ≠ 0 := by simpa [hasNormals] using hb
      have := h3 this
      omega)
  unfold saveAsPlyEffect
  rw [h]
  simp only [ho, Bool.not_true, Bool.false_eq_true, if_false]
  show (match plyBodyLoop fmt pc (hasNormals pc) pc.x_vals.length 0
      (plyHeader pc (hasNormals pc) "") with
    | .error e => (fs.store filename (plyHeader pc (hasNormals pc) ""), Except.error e)
    | .ok out => (fs.store filename out, Except.ok true)) = _
  rw [hloop]
  simp only [plyHeader_eq, plyText, unlines_append, plyBodyLines, List.range_eq_range']

/-! ## The claims -/

/-- C1. For every `N`, every list of `N` points and every list of `N` normals, the
constructor (with `T` the float kind, so that the conversion is the identity)
returns a container whose six columns are the coordinate-wise projections of the
inputs in their original order: at every index `i < N`, `x_vals[i]`, `y_vals[i]`,
`z_vals[i]` are `points[i].x`, `.y`, `.z` and `x_normals[i]`, `y_normals[i]`,
`z_normals[i]` are `normals[i].x`, `.y`, `.z`. -/
theorem C1_constructor_columns {F : Type} (d : F) (N : Nat) (points normals : List (Point F))
    (hp : points.length = N) (hn : normals.length = N) :
    ∃ pc : PointCloud F, PointCloud.ctor id d points normals = .ok pc ∧
      (pc.x_vals = points.map (fun p => p.x) ∧ pc.y_vals = points.map (fun p => p.y) ∧
        pc.z_vals = points.map (fun p => p.z) ∧ pc.x_normals = normals.map (fun p => p.x) ∧
        pc.y_normals = normals.map (fun p => p.y) ∧
        pc.z_normals = normals.map (fun p => p.z)) ∧
      ∀ i, i < N → ∃ p q, points[i]? = some p ∧ normals[i]? = some q ∧
        pc.x_vals[i]? = some p.x ∧ pc.y_vals[i]? = some p.y ∧ pc.z_vals[i]? = some p.z ∧
        pc.x_normals[i]? = some q.x ∧ pc.y_normals[i]? = some q.y ∧
        pc.z_normals[i]? = some q.z := by
  refine ⟨columnsOf id points normals, ctor_eq id d points normals (by omega),
    ⟨rfl, rfl, rfl, rfl, rfl, rfl⟩, ?_⟩
  intro i hi
  have h1 : i < points.length := by omega
  have h2 : i < normals.length := by omega
  refine ⟨points[i], normals[i], List.getElem?_eq_getElem h1, List.getElem?_eq_getElem h2, ?_⟩
  simp [columnsOf, List.getElem?_map, List.getElem?_eq_getElem, h1, h2]

/-- Witness of C1: two points and two normals over the integers. -/
theorem C1_constructor_columns_witness :
    ([(⟨1, 2, 3⟩ : Point Int), ⟨4, 5, 6⟩].length = 2 ∧
      [(⟨7, 8, 9⟩ : Point Int), ⟨10, 11, 12⟩].length = 2) ∧
    ∃ pc : PointCloud Int,
      PointCloud.ctor id 0 [⟨1, 2, 3⟩, ⟨4, 5, 6⟩] [⟨7, 8, 9⟩, ⟨10, 11, 12⟩] = .ok pc ∧
      pc.x_vals = [1, 4] ∧ pc.y_vals = [2, 5] ∧ pc.z_vals = [3, 6] ∧
      pc.x_normals = [7, 10] ∧ pc.y_normals = [8, 11] ∧ pc.z_normals = [9, 12] := by
  refine ⟨⟨rfl, rfl⟩, ?_⟩
  obtain ⟨pc, h, hcols, _⟩ := C1_constructor_columns (0 : Int) 2
    [⟨1, 2, 3⟩, ⟨4, 5, 6⟩] [⟨7, 8, 9⟩, ⟨10, 11, 12⟩] rfl rfl
  exact ⟨pc, h, hcols⟩

/-- C2. The constructor fails, producing no container, if and only if
`points.size() != normals.size()`: with different lengths it ends in the failed
assertion, with equal lengths it returns a container. -/
theorem C2_constructor_fails_iff_mismatch {F T : Type} (conv : F → T) (d : T)
    (points normals : List (Point F)) :
    (PointCloud.ctor conv d points normals = .error .assertFailed ↔
        points.length ≠ normals.length) ∧
    ((∃ pc, PointCloud.ctor conv d points normals = .ok pc) ↔
        points.length = normals.length) ∧
    ((∃ e, PointCloud.ctor conv d points normals = .error e) ↔
        points.length ≠ normals.length) := by
  by_cases h : points.length = normals.length
  · have hk := ctor_eq conv d points normals h
    refine ⟨?_, ?_, ?_⟩
    · rw [hk]; simp [h]
    · rw [hk]; simp [h]
    · rw [hk]; simp [h]
  · have hk := ctor_mismatch conv d points normals h
    refine ⟨?_, ?_, ?_⟩
    · rw [hk]; simp [h]
    · rw [hk]; simp [h]
    · rw [hk]; simp [h]

/-- C3. Every container the constructor returns for `N` points and `N` normals
has all six columns of length `N`; every assertion of `saveAsPly` passes on it
and `saveAsPly` returns, whatever the file name and the file system.  The same
holds for the default-constructed container, whose six columns are empty. -/
theorem C3_constructed_invariant {F T : Type} (conv : F → T) (d : T) (N : Nat)
    (points normals : List (Point F)) (hp : points.length = N) (hn : normals.length = N) :
    (∃ pc : PointCloud T, PointCloud.ctor conv d points normals = .ok pc ∧
      (pc.x_vals.length = N ∧ pc.y_vals.length = N ∧ pc.z_vals.length = N) ∧
      (pc.x_normals.length = N ∧ pc.y_normals.length = N ∧ pc.z_normals.length = N) ∧
      plyChecks pc = .ok () ∧
      ∀ (fmt : T → String) (filename : String) (fs : FileSystem),
        ∃ r, saveAsPly fmt pc filename fs = .ok r) ∧
    ((PointCloud.empty T).x_vals.length = 0 ∧ (PointCloud.empty T).y_vals.length = 0 ∧
      (PointCloud.empty T).z_vals.length = 0 ∧ (PointCloud.empty T).x_normals.length = 0 ∧
      (PointCloud.empty T).y_normals.length = 0 ∧ (PointCloud.empty T).z_normals.length = 0 ∧
      plyChecks (PointCloud.empty T) = .ok () ∧
      ∀ (fmt : T → String) (filename : String) (fs : FileSystem),
        ∃ r, saveAsPly fmt (PointCloud.empty T) filename fs = .ok r) := by
  constructor
  · have hc : plyChecks (columnsOf conv points normals) = .ok () :=
      plyChecks_of_lengths _ N (by simp [columnsOf, hp]) (by simp [columnsOf, hp])
        (by simp [columnsOf, hp]) (by simp [columnsOf, hn]) (by simp [columnsOf, hn])
        (by simp [columnsOf, hn])
    refine ⟨columnsOf conv points normals, ctor_eq conv d points normals (by omega),
      ⟨by simp [columnsOf, hp], by simp [columnsOf, hp], by simp [columnsOf, hp]⟩,
      ⟨by simp [columnsOf, hn], by simp [columnsOf, hn], by simp [columnsOf, hn]⟩, hc, ?_⟩
    intro fmt filename fs
    exact saveAsPly_returns fmt _ filename fs hc
  · have hc : plyChecks (PointCloud.empty T) = .ok () :=
      plyChecks_of_lengths _ 0 rfl rfl rfl rfl rfl rfl
    refine ⟨rfl, rfl, rfl, rfl, rfl, rfl, hc, ?_⟩
    intro fmt filename fs
    exact saveAsPly_returns fmt _ filename fs hc

/-- Witness of C3: one point and one normal over the integers. -/
theorem C3_constructed_invariant_witness :
    ([(⟨1, 2, 3⟩ : Point Int)].length = 1 ∧ [(⟨7, 8, 9⟩ : Point Int)].length = 1) ∧
    ∃ pc : PointCloud Int, PointCloud.ctor id 0 [⟨1, 2, 3⟩] [⟨7, 8, 9⟩] = .ok pc ∧
      (pc.x_vals.length = 1 ∧ pc.y_vals.length = 1 ∧ pc.z_vals.length = 1) ∧
      (pc.x_normals.length = 1 ∧ pc.y_normals.length = 1 ∧ pc.z_normals.length = 1) ∧
      plyChecks pc = .ok () := by
  refine ⟨⟨rfl, rfl⟩, ?_⟩
  obtain ⟨⟨pc, h, hv, hn, hc, _⟩, _⟩ := C3_constructed_invariant (id : Int → Int) 0 1
    [⟨1, 2, 3⟩] [⟨7, 8, 9⟩] rfl rfl
  exact ⟨pc, h, hv, hn, hc⟩

/-- C4. For a container that passes the checks of `saveAsPly` and a file that
opens, the text after the `end_header` line consists of exactly
`N = x_vals.size()` lines, the count declared in the header; for every `i < N`
line `i` is the text of `x_vals[i]`, `y_vals[i]`, `z_vals[i]` joined by single
spaces, followed, if and only if `x_normals` is not empty, by the text of
`x_normals[i]`, `y_normals[i]`, `z_normals[i]`: 3 fields without normals and 6
with them, in array order.  When `fmt` never prints a newline, the lines of the
file are the header lines followed by these `N` lines. -/
theorem C4_body_lines {T : Type} (fmt : T → String) (pc : PointCloud T) (filename : String)
    (fs : FileSystem) (hc : plyChecks pc = .ok ()) (ho : fs.openable filename = true) :
    ∃ (fs1 : FileSystem) (lines : List String),
      saveAsPly fmt pc filename fs = .ok (true, fs1) ∧
      fs1.content filename = some (unlines (plyHeaderLines pc) ++ unlines lines) ∧
      (plyHeaderLines pc).getLast? = some "end_header" ∧
      lines.length = pc.x_vals.length ∧
      (plyHeaderLines pc)[2]? = some ("element vertex " ++ toString lines.length) ∧
      (∀ i, i < pc.x_vals.length → ∃ vals : List T,
        lines[i]? = some (spaced (vals.map fmt)) ∧
        vals.map some =
          [pc.x_vals[i]?, pc.y_vals[i]?, pc.z_vals[i]?] ++
            (if pc.x_normals.length = 0 then []
             else [pc.x_normals[i]?, pc.y_normals[i]?, pc.z_normals[i]?]) ∧
        vals.length = (if pc.x_normals.length = 0 then 3 else 6)) ∧
      ((∀ t, '\n' ∉ (fmt t).data) →
        textLines (unlines (plyHeaderLines pc) ++ unlines lines)
          = plyHeaderLines pc ++ lines) := by
  refine ⟨fs.store filename (plyText fmt pc), plyBodyLines fmt pc,
    saveAsPly_open fmt pc filename fs hc ho, ?_, ?_, plyBodyLines_length fmt pc, ?_, ?_, ?_⟩
  · rw [store_content, plyText, unlines_append]
  · cases hb : hasNormals pc <;> simp [plyHeaderLines, hb]
  · rw [plyBodyLines_length]
    simp [plyHeaderLines]
  · intro i hi
    obtain ⟨vals, hrow, hlen, hred⟩ := plyRow_checked pc hc i hi
    refine ⟨vals, ?_, ?_, ?_⟩
    · rw [plyBodyLines_getElem? fmt pc i hi, hred]
    · rw [← hrow]
      by_cases hz : pc.x_normals.length = 0 <;> simp [plyRow, hasNormals, hz]
    · rw [hlen]
      by_cases hz : pc.x_normals.length = 0 <;> simp [hasNormals, hz]
  · intro hf
    rw [← unlines_append, ← String.append_empty (unlines _), textLines_unlines_append]
    · simp [textLines, splitLines]
    · intro l hl
      rcases List.mem_append.mp hl with h | h
      · exact plyHeaderLines_no_newline pc l h
      · exact plyBodyLines_no_newline fmt pc hf l h

/-- Witness of C4: the cloud (1,0,0), (0,1,0), (0,0,1) without normals, written
to `cloud.ply`: vertex count 3, no normal properties, three lines of three
numbers. -/
theorem C4_body_lines_witness :
    (plyChecks cloud3 = .ok () ∧ fsEmpty.openable "cloud.ply" = true) ∧
    (∃ (fs1 : FileSystem) (lines : List String),
      saveAsPly (fun n : Int => toString n) cloud3 "cloud.ply" fsEmpty = .ok (true, fs1) ∧
      fs1.content "cloud.ply" = some (unlines (plyHeaderLines cloud3) ++ unlines lines) ∧
      lines.length = 3) ∧
    (saveAsPly (fun n : Int => toString n) cloud3 "cloud.ply" fsEmpty).map
        (fun r => (r.1, r.2.content "cloud.ply"))
      = .ok (true, some ("ply\nformat ascii 1.0\nelement vertex 3\nproperty float x\n"
          ++ "property float y\nproperty float z\nend_header\n1 0 0\n0 1 0\n0 0 1\n")) := by
  refine ⟨⟨by decide, by decide⟩, ?_, by decide⟩
  obtain ⟨fs1, lines, h1, h2, _, h4, _⟩ :=
    C4_body_lines (fun n : Int => toString n) cloud3 "cloud.ply" fsEmpty (by decide) (by decide)
  exact ⟨fs1, lines, h1, h2, h4⟩

/-- C5. For a container that passes the checks of `saveAsPly` and a file that
opens, the file starts with the header lines `ply`, `format ascii 1.0`,
`element vertex N` with `N` the decimal length of `x_vals`, `property float x`,
`property float y`, `property float z`, then `property float nx`,
`property float ny`, `property float nz` all three when the normals are not
empty and none of them otherwise, then `end_header`: 7 lines without normals, 10
with them. -/
theorem C5_header_lines {T : Type} (fmt : T → String) (pc : PointCloud T) (filename : String)
    (fs : FileSystem) (hc : plyChecks pc = .ok ()) (ho : fs.openable filename = true) :
    ∃ (fs1 : FileSystem) (header : List String) (body : String),
      saveAsPly fmt pc filename fs = .ok (true, fs1) ∧
      fs1.content filename = some (unlines header ++ body) ∧
      header =
        ["ply", "format ascii 1.0", "element vertex " ++ toString pc.x_vals.length,
          "property float x", "property float y", "property float z"]
        ++ (if pc.x_normals.length = 0 then []
            else ["property float nx", "property float ny", "property float nz"])
        ++ ["end_header"] ∧
      header.length = (if pc.x_normals.length = 0 then 7 else 10) ∧
      (pc.x_normals.length ≠ 0 ↔
        pc.x_normals.length ≠ 0 ∧ pc.y_normals.length ≠ 0 ∧ pc.z_normals.length ≠ 0) ∧
      (∀ l ∈ header, '\n' ∉ l.data) ∧
      (textLines (unlines header ++ body)).take header.length = header := by
  have hh : plyHeaderLines pc =
      ["ply", "format ascii 1.0", "element vertex " ++ toString pc.x_vals.length,
        "property float x", "property float y", "property float z"]
      ++ (if pc.x_normals.length = 0 then []
          else ["property float nx", "property float ny", "property float nz"])
      ++ ["end_header"] := by
    by_cases hz : pc.x_normals.length = 0 <;> simp [plyHeaderLines, hasNormals, hz]
  refine ⟨fs.store filename (plyText fmt pc), plyHeaderLines pc,
    unlines (plyBodyLines fmt pc), saveAsPly_open fmt pc filename fs hc ho, ?_, hh, ?_, ?_,
    plyHeaderLines_no_newline pc, ?_⟩
  · rw [store_content, plyText, unlines_append]
  · rw [hh]
    by_cases hz : pc.x_normals.length = 0 <;> simp [hz]
  · obtain ⟨h1, h2, h3⟩ := plyChecks_bounds pc hc
    constructor
    · intro hx
      have := h3 hx
      omega
    · intro hx
      exact hx.1
  · rw [textLines_unlines_append _ _ (plyHeaderLines_no_newline pc)]
    simp

/-- Witness of C5: the cloud (1,0,0), (0,1,0), (0,0,1) with matching normals,
written to `cloud.ply`: the header names `nx`, `ny`, `nz` and every body line
holds six numbers. -/
theorem C5_header_lines_witness :
    (plyChecks cloud3n = .ok () ∧ fsEmpty.openable "cloud.ply" = true) ∧
    (∃ (fs1 : FileSystem) (header : List String) (body : String),
      saveAsPly (fun n : Int => toString n) cloud3n "cloud.ply" fsEmpty = .ok (true, fs1) ∧
      fs1.content "cloud.ply" = some (unlines header ++ body) ∧
      header = ["ply", "format ascii 1.0", "element vertex 3", "property float x",
        "property float y", "property float z", "property float nx", "property float ny",
        "property float nz", "end_header"]) ∧
    (saveAsPly (fun n : Int => toString n) cloud3n "cloud.ply" fsEmpty).map
        (fun r => (r.1, r.2.content "cloud.ply"))
      = .ok (true, some ("ply\nformat ascii 1.0\nelement vertex 3\nproperty float x\n"
          ++ "property float y\nproperty float z\nproperty float nx\nproperty float ny\n"
          ++ "property float nz\nend_header\n1 0 0 1 0 0\n0 1 0 0 1 0\n0 0 1 0 0 1\n")) := by
  refine ⟨⟨by decide, by decide⟩, ?_, by rfl⟩
  obtain ⟨fs1, header, body, h1, h2, h3, _⟩ :=
    C5_header_lines (fun n : Int => toString n) cloud3n "cloud.ply" fsEmpty
      (by decide) (by decide)
  have h4 : header = ["ply", "format ascii 1.0", "element vertex 3", "property float x",
      "property float y", "property float z", "property float nx", "property float ny",
      "property float nz", "end_header"] := h3.trans (by decide)
  exact ⟨fs1, header, body, h1, h2, h4⟩

/-- Counterexample to C6 as stated: with one vertex, `x_normals` empty and
`y_normals = [5]`, a normal array is not empty and the normal arrays do not have
the position-array length, yet every check passes and `saveAsPly` writes the file
and returns `true`. -/
theorem C6_counterexample :
    specAbortCondition cloudLoneNormal ∧
    plyChecks cloudLoneNormal = .ok () ∧
    (saveAsPly (fun n : Int => toString n) cloudLoneNormal "cloud.ply" fsEmpty).map
        (fun r => (r.1, r.2.content "cloud.ply"))
      = .ok (true, some ("ply\nformat ascii 1.0\nelement vertex 1\nproperty float x\n"
          ++ "property float y\nproperty float z\nend_header\n1 2 3\n")) := by
  refine ⟨by decide, by decide, by decide⟩

/-- C6, amended. `saveAsPly` aborts exactly when the three position arrays do not
all have the same length, or `x_normals` is not empty and the length of
`x_normals`, `y_normals` or `z_normals` differs from the position-array length; in
every other state it returns.  The abort comes before the file is opened or
written: whenever the call ends in a fault, the fault is the failed assertion and
the file system is the one the call started with. -/
theorem C6_abort_iff {T : Type} (fmt : T → String) (pc : PointCloud T) (filename : String)
    (fs : FileSystem) :
    (saveAsPly fmt pc filename fs = .error .assertFailed ↔
      (¬ (pc.x_vals.length = pc.y_vals.length ∧ pc.x_vals.length = pc.z_vals.length) ∨
       (pc.x_normals.length ≠ 0 ∧
        (pc.x_normals.length ≠ pc.x_vals.length ∨ pc.y_normals.length ≠ pc.x_vals.length ∨
          pc.z_normals.length ≠ pc.x_vals.length)))) ∧
    ((∃ r, saveAsPly fmt pc filename fs = .ok r) ↔
      ¬ (¬ (pc.x_vals.length = pc.y_vals.length ∧ pc.x_vals.length = pc.z_vals.length) ∨
       (pc.x_normals.length ≠ 0 ∧
        (pc.x_normals.length ≠ pc.x_vals.length ∨ pc.y_normals.length ≠ pc.x_vals.length ∨
          pc.z_normals.length ≠ pc.x_vals.length)))) ∧
    (plyChecks pc = .error .assertFailed ↔
      saveAsPly fmt pc filename fs = .error .assertFailed) ∧
    (saveAsPlyEffect fmt pc filename fs = (fs, .error .assertFailed) ↔
      (¬ (pc.x_vals.length = pc.y_vals.length ∧ pc.x_vals.length = pc.z_vals.length) ∨
       (pc.x_normals.length ≠ 0 ∧
        (pc.x_normals.length ≠ pc.x_vals.length ∨ pc.y_normals.length ≠ pc.x_vals.length ∨
          pc.z_normals.length ≠ pc.x_vals.length)))) ∧
    (∀ (fs1 : FileSystem) (e : Fault),
      saveAsPlyEffect fmt pc filename fs = (fs1, .error e) → e = .assertFailed ∧ fs1 = fs) ∧
    (∀ e : Fault, saveAsPly fmt pc filename fs = .error e ↔
      saveAsPlyEffect fmt pc filename fs = (fs, .error e)) := by
  by_cases hc : plyChecks pc = .ok ()
  · obtain ⟨r, hr⟩ := saveAsPly_returns fmt pc filename fs hc
    have hno := (plyChecks_ok_iff pc).mp hc
    have heff : ∃ fs1 b, saveAsPlyEffect fmt pc filename fs = (fs1, .ok b) := by
      cases ho : fs.openable filename with
      | false => exact ⟨_, _, saveAsPlyEffect_closed fmt pc filename fs hc ho⟩
      | true => exact ⟨_, _, saveAsPlyEffect_open fmt pc filename fs hc ho⟩
    obtain ⟨fs1, b, hb⟩ := heff
    rw [hr, hc, hb]
    refine ⟨⟨fun h => (by cases h), fun h => absurd h hno⟩, ⟨fun _ => hno, fun _ => ⟨r, rfl⟩⟩,
      ⟨fun h => (by cases h), fun h => (by cases h)⟩,
      ⟨fun h => (by cases h), fun h => absurd h hno⟩,
      fun _ _ h => (by cases h),
      fun e => ⟨fun h => (by cases h), fun h => (by cases h)⟩⟩
  · have he := plyChecks_error pc hc
    have hyes := not_not.mp (fun h => hc ((plyChecks_ok_iff pc).mpr h))
    rw [saveAsPly_abort fmt pc filename fs _ he, he,
      saveAsPlyEffect_abort fmt pc filename fs _ he]
    refine ⟨⟨fun _ => hyes, fun _ => rfl⟩,
      ⟨fun h => (by obtain ⟨r, hr⟩ := h; cases hr), fun h => absurd hyes h⟩,
      ⟨fun _ => rfl, fun _ => rfl⟩,
      ⟨fun _ => hyes, fun _ => rfl⟩,
      fun fs1 e h => (by cases h; exact ⟨rfl, rfl⟩),
      fun e => ⟨fun h => (by cases h; rfl), fun h => (by cases h; rfl)⟩⟩

/-- C7. For a container that passes the checks of `saveAsPly`, the call returns
`false` if and only if the file cannot be opened, and then the file system is
left as it was; when the file opens, the call stores the header followed by the
body under the file name, leaves every other file alone and returns `true`. -/
theorem C7_open_failure {T : Type} (fmt : T → String) (pc : PointCloud T) (filename : String)
    (fs : FileSystem) (hc : plyChecks pc = .ok ()) :
    ∃ (b : Bool) (fs1 : FileSystem),
      saveAsPly fmt pc filename fs = .ok (b, fs1) ∧
      (b = false ↔ fs.openable filename = false) ∧
      (fs.openable filename = false → fs1 = fs) ∧
      (fs.openable filename = true →
        b = true ∧
        fs1.content filename
          = some (unlines (plyHeaderLines pc) ++ unlines (plyBodyLines fmt pc)) ∧
        (∀ p, p ≠ filename → fs1.content p = fs.content p) ∧
        fs1.openable = fs.openable) := by
  cases ho : fs.openable filename with
  | false =>
    exact ⟨false, fs, saveAsPly_closed fmt pc filename fs hc ho, (by simp), fun _ => rfl,
      fun h => (by cases h)⟩
  | true =>
    refine ⟨true, fs.store filename (plyText fmt pc), saveAsPly_open fmt pc filename fs hc ho,
      (by simp), fun h => (by cases h), fun _ => ⟨rfl, ?_, ?_, rfl⟩⟩
    · rw [store_content, plyText, unlines_append]
    · intro p hp
      simp [FileSystem.store, hp]

/-- Witness of C7: the three-point cloud and the path `"/"`, which does not open. -/
theorem C7_open_failure_witness :
    plyChecks cloud3 = .ok () ∧
    ∃ (b : Bool) (fs1 : FileSystem),
      saveAsPly (fun n : Int => toString n) cloud3 "/" fsEmpty = .ok (b, fs1) ∧
      (b = false ↔ fsEmpty.openable "/" = false) ∧
      (fsEmpty.openable "/" = false → fs1 = fsEmpty) := by
  refine ⟨by decide, ?_⟩
  obtain ⟨b, fs1, h1, h2, h3, _⟩ :=
    C7_open_failure (fun n : Int => toString n) cloud3 "/" fsEmpty (by decide)
  exact ⟨b, fs1, h1, h2, h3⟩

/-- C8. For every storage kind `T` other than `float`, every container state and
every argument list, `setNormals` ends in the failed `assert(false)`: the outcome
does not depend on the data, and no call returns a container. -/
theorem C8_setNormals_unsupported {F T : Type} (kind : StorageKind)
    (setNormalsFloat : PointCloud T → List (Point F) → Except Fault (PointCloud T))
    (pc : PointCloud T) (normals : List (Point F)) (hk : kind ≠ .float) :
    setNormals kind setNormalsFloat pc normals = .error .assertFailed ∧
    ¬ ∃ pc1, setNormals kind setNormalsFloat pc normals = .ok pc1 := by
  have h : setNormals kind setNormalsFloat pc normals = .error .assertFailed := by
    cases kind with
    | float => exact absurd rfl hk
    | other name => rfl
  refine ⟨h, ?_⟩
  rintro ⟨pc1, h1⟩
  rw [h] at h1
  cases h1

/-- Witness of C8: a `PointCloud<double>` whose columns have the length of the
argument list. -/
theorem C8_setNormals_unsupported_witness :
    StorageKind.other "double" ≠ StorageKind.float ∧
    setNormals (StorageKind.other "double") (fun pc _ => .ok pc) cloud3n
        [(⟨1, 0, 0⟩ : Point Int), ⟨0, 1, 0⟩, ⟨0, 0, 1⟩] = .error .assertFailed ∧
    setNormals (StorageKind.other "double") (fun pc _ => .ok pc) cloud3n
        ([] : List (Point Int)) = .error .assertFailed := by
  refine ⟨by decide, ?_, ?_⟩
  · exact (C8_setNormals_unsupported (StorageKind.other "double") (fun pc _ => .ok pc) cloud3n
      [(⟨1, 0, 0⟩ : Point Int), ⟨0, 1, 0⟩, ⟨0, 0, 1⟩] (by decide)).1
  · exact (C8_setNormals_unsupported (StorageKind.other "double") (fun pc _ => .ok pc) cloud3n
      ([] : List (Point Int)) (by decide)).1

/-- C9. Start in a state in which the descriptor is not initialised.  The first
call of `getMpiDatatype` returns when no function of the communication layer
reports an error.  Whenever it returns, with handle `h` and state `s1`: the
initialised flag is set; the communication layer has received exactly one
`MPI_Type_create_struct`, one `MPI_Type_get_extent`, one `MPI_Type_create_resized`
and one `MPI_Type_commit`, the last on `h`; and every sequence of one or more calls
returns `h` each time and ends in `s1`, so that no later call creates, resizes or
commits anything or resets the flag.  A call in an initialised state returns the
stored handle and changes nothing. -/
theorem C9_descriptor_built_once (s : ProcState) (hs : s.mpi_datatype_initialized = false) :
    (s.mpi.failing = [] → ∃ h s1, getMpiDatatype s = .ok (h, s1)) ∧
    (∀ (h : Handle) (s1 : ProcState), getMpiDatatype s = .ok (h, s1) →
      s1.mpi_datatype_initialized = true ∧
      s1.mpi_datatype = h ∧
      (∃ (struct_type : Handle) (lb extent : Int),
        s1.mpi.log = s.mpi.log ++
          [.typeCreateStruct 3 [1, 1, 1] [offsetof_x, offsetof_y, offsetof_z]
              [MPI_FLOAT, MPI_FLOAT, MPI_FLOAT],
            .typeGetExtent struct_type,
            .typeCreateResized struct_type lb extent,
            .typeCommit h]) ∧
      (∀ n : Nat, callGetMpiDatatype (n + 1) s = .ok (List.replicate (n + 1) h, s1))) ∧
    (∀ t : ProcState, t.mpi_datatype_initialized = true →
      getMpiDatatype t = .ok (t.mpi_datatype, t)) := by
  refine ⟨fun hf => ⟨_, _, getMpiDatatype_healthy s hs hf⟩, ?_, getMpiDatatype_initialized⟩
  intro h s1 hr
  obtain ⟨h1, h2, h3⟩ := getMpiDatatype_first s h s1 hs hr
  refine ⟨h1, h2, h3, ?_⟩
  intro n
  simp only [callGetMpiDatatype, hr, callGetMpiDatatype_initialized n s1 h1, bind, Except.bind,
    pure, Except.pure, h2, List.replicate_succ]

/-- Witness of C9: three calls in a fresh process return the same handle and leave
exactly four calls in the log. -/
theorem C9_descriptor_built_once_witness :
    (ProcState.start mpiFresh).mpi_datatype_initialized = false ∧
    callGetMpiDatatype 3 (ProcState.start mpiFresh)
      = .ok ([.derived 1, .derived 1, .derived 1],
          { mpi_datatype_initialized := true,
            mpi_datatype := .derived 1,
            mpi := { derived := [pointDatatype false, pointDatatype true],
                     log := firstCallLog 0,
                     errorsAreFatal := true,
                     failing := [] } }) :=
  ⟨rfl, ((C9_descriptor_built_once (ProcState.start mpiFresh) rfl).2.1 (.derived 1)
    { mpi_datatype_initialized := true,
      mpi_datatype := .derived 1,
      mpi := { derived := [pointDatatype false, pointDatatype true],
               log := firstCallLog 0,
               errorsAreFatal := true,
               failing := [] } } (by decide)).2.2.2 2⟩

/-- C10. When no function of the communication layer reports an error, the
descriptor that the first `getMpiDatatype` commits and returns has three `float`
entries, each from a block of length 1, at the byte offsets of `x`, `y`, `z` in
`Point`, which are 0, 4, 8; its extent is `sizeof(Point) = 12`, so that element
`k` of an array of `K ≥ 1` such elements starts at byte `12 * k`, as in an array
of `Point`.  The handle committed and returned is the one
`MPI_Type_create_resized` produced; the handle `MPI_Type_create_struct` produced
is another one and is left uncommitted. -/
theorem C10_descriptor_layout (s : ProcState) (hs : s.mpi_datatype_initialized = false)
    (hf : s.mpi.failing = []) :
    ∃ (h struct_type : Handle) (s1 : ProcState) (dt : Datatype),
      getMpiDatatype s = .ok (h, s1) ∧
      s1.mpi.lookup h = some dt ∧
      dt.typemap = [(.float, (offsetof_x : Int)), (.float, (offsetof_y : Int)),
        (.float, (offsetof_z : Int))] ∧
      (offsetof_x, offsetof_y, offsetof_z) = (0, 4, 8) ∧
      dt.committed = true ∧
      dt.lb = 0 ∧
      dt.extent = sizeofPoint ∧
      sizeofPoint = 12 ∧
      (∀ K : Nat, 1 ≤ K → ∀ k : Nat, k < K →
        elementStart dt.extent k = 12 * k ∧
        elementStart dt.extent k = elementStart sizeofPoint k) ∧
      s1.mpi.log = s.mpi.log ++
        [.typeCreateStruct 3 [1, 1, 1] [offsetof_x, offsetof_y, offsetof_z]
            [MPI_FLOAT, MPI_FLOAT, MPI_FLOAT],
          .typeGetExtent struct_type,
          .typeCreateResized struct_type 0 sizeofPoint,
          .typeCommit h] ∧
      h ≠ struct_type ∧
      (∃ st : Datatype, s1.mpi.lookup struct_type = some st ∧ st.committed = false ∧
        st.typemap = dt.typemap) := by
  refine ⟨.derived (s.mpi.derived.length + 1), .derived s.mpi.derived.length, _,
    pointDatatype true, getMpiDatatype_healthy s hs hf, ?_, by decide, by decide, rfl, rfl,
    by decide, by decide, ?_, ?_, ?_, ?_⟩
  · simp only [MpiEnv.lookup]
    rw [List.getElem?_append_right (by omega)]
    simp
  · intro K _ k _
    exact ⟨rfl, rfl⟩
  · rfl
  · intro he
    injection he with he
    omega
  · refine ⟨pointDatatype false, ?_, rfl, rfl⟩
    simp only [MpiEnv.lookup]
    rw [List.getElem?_append_right (by omega)]
    simp

/-- Witness of C10: the first call in a fresh process. -/
theorem C10_descriptor_layout_witness :
    ((ProcState.start mpiFresh).mpi_datatype_initialized = false ∧
      (ProcState.start mpiFresh).mpi.failing = []) ∧
    ∃ (h struct_type : Handle) (s1 : ProcState) (dt : Datatype),
      getMpiDatatype (ProcState.start mpiFresh) = .ok (h, s1) ∧
      s1.mpi.lookup h = some dt ∧
      dt.typemap = [(.float, 0), (.float, 4), (.float, 8)] ∧
      dt.committed = true ∧
      dt.extent = 12 ∧
      h ≠ struct_type := by
  refine ⟨⟨rfl, rfl⟩, ?_⟩
  obtain ⟨h, st, s1, dt, h1, h2, h3, _, h5, _, h7, h8, _, _, h11, _⟩ :=
    C10_descriptor_layout (ProcState.start mpiFresh) rfl rfl
  exact ⟨h, st, s1, dt, h1, h2, h3.trans (by decide), h5, h7.trans (by rw [h8]; rfl), h11⟩

/-- Counterexample to C11 as stated: with the handler `MPI_ERRORS_RETURN` and a
failing `MPI_Type_commit`, the first call returns the handle `derived 1`, sets the
initialised flag, and the next call returns the same handle, although the
descriptor it names was never committed. -/
theorem C11_counterexample :
    MpiOp.typeCommit ∈ mpiCommitFailsReturn.failing ∧
    callGetMpiDatatype 2 (ProcState.start mpiCommitFailsReturn)
      = .ok ([.derived 1, .derived 1],
          { mpi_datatype_initialized := true,
            mpi_datatype := .derived 1,
            mpi := { derived := [pointDatatype false, pointDatatype false],
                     log := firstCallLog 0,
                     errorsAreFatal := false,
                     failing := [.typeCommit] } }) ∧
    MpiEnv.lookup
        { derived := [pointDatatype false, pointDatatype false], log := firstCallLog 0,
          errorsAreFatal := false, failing := [.typeCommit] } (.derived 1)
      = some (pointDatatype false) := by
  refine ⟨by decide, by decide, by decide⟩

/-- C11, amended. Under the error handler `MPI_ERRORS_ARE_FATAL`, which is the
default, a first call of `getMpiDatatype` whose commit step reports a failure does
not return: no handle is returned, the initialised flag is not set, and no sequence
of calls returns anything.  Under that handler every first call that does return
has committed the descriptor whose handle it returns. -/
theorem C11_commit_failure_fatal (s : ProcState) (hs : s.mpi_datatype_initialized = false)
    (hf : s.mpi.errorsAreFatal = true) :
    (MpiOp.typeCommit ∈ s.mpi.failing →
      getMpiDatatype s = .error .mpiAbort ∧
      (¬ ∃ r, getMpiDatatype s = .ok r) ∧
      ∀ n : Nat, callGetMpiDatatype (n + 1) s = .error .mpiAbort) ∧
    (∀ (h : Handle) (s1 : ProcState), getMpiDatatype s = .ok (h, s1) →
      MpiOp.typeCommit ∉ s.mpi.failing ∧
      ∃ dt, s1.mpi.lookup h = some dt ∧ dt.committed = true) := by
  constructor
  · intro h4
    have ha : getMpiDatatype s = .error .mpiAbort := by
      rcases getMpiDatatype_fatal_cases s hs hf with ⟨_, _, _, h⟩ | h
      · exact absurd h4 h
      · exact h
    refine ⟨ha, ?_, fun n => callGetMpiDatatype_abort n s _ ha⟩
    rintro ⟨r, hr⟩
    rw [ha] at hr
    cases hr
  · intro h s1 hr
    rcases getMpiDatatype_fatal_cases s hs hf with ⟨h1, h2, h3, h4⟩ | ha
    · refine ⟨h4, pointDatatype true, ?_, rfl⟩
      rw [getMpiDatatype_all_ok s hs h1 h2 h3 h4] at hr
      simp only [Except.ok.injEq, Prod.mk.injEq] at hr
      obtain ⟨rfl, rfl⟩ := hr
      exact lookup_committed _ _ _ _
    · rw [ha] at hr
      cases hr

/-- Witness of C11: a fresh process with the default handler and a failing
`MPI_Type_commit`. -/
theorem C11_commit_failure_fatal_witness :
    ((ProcState.start mpiCommitFailsFatal).mpi_datatype_initialized = false ∧
      (ProcState.start mpiCommitFailsFatal).mpi.errorsAreFatal = true ∧
      MpiOp.typeCommit ∈ (ProcState.start mpiCommitFailsFatal).mpi.failing) ∧
    getMpiDatatype (ProcState.start mpiCommitFailsFatal) = .error .mpiAbort ∧
    callGetMpiDatatype 3 (ProcState.start mpiCommitFailsFatal) = .error .mpiAbort :=
  ⟨⟨rfl, rfl, by decide⟩,
    ((C11_commit_failure_fatal (ProcState.start mpiCommitFailsFatal) rfl rfl).1
      (by decide)).1,
    ((C11_commit_failure_fatal (ProcState.start mpiCommitFailsFatal) rfl rfl).1
      (by decide)).2.2 2⟩

/-- C12. For all points `p1` and `p2`, `Point::distance2(p1, p2)` is the sum of the
three coordinate differences each multiplied by itself, whatever the arithmetic
`+`, `-`, `*` stand for; over a ring this is
`(p1.x-p2.x)^2 + (p1.y-p2.y)^2 + (p1.z-p2.z)^2`.  No square root is taken and the
function is total.  In particular `distance2((0,0,0), (3,4,0)) = 25`. -/
theorem C12_distance2_value :
    (∀ (F : Type) [Add F] [Sub F] [Mul F] (p1 p2 : Point F),
      Point.distance2 p1 p2 =
        (p1.x - p2.x) * (p1.x - p2.x) + (p1.y - p2.y) * (p1.y - p2.y)
          + (p1.z - p2.z) * (p1.z - p2.z)) ∧
    (∀ (F : Type) [Ring F] (p1 p2 : Point F),
      Point.distance2 p1 p2 = (p1.x - p2.x) ^ 2 + (p1.y - p2.y) ^ 2 + (p1.z - p2.z) ^ 2) ∧
    Point.distance2 (⟨0, 0, 0⟩ : Point ℚ) ⟨3, 4, 0⟩ = 25 := by
  refine ⟨fun F _ _ _ p1 p2 => rfl, fun F _ p1 p2 => ?_, by norm_num [Point.distance2]⟩
  simp only [Point.distance2, sq]

/-- C13. For all points `a` and `b`, `a.dot(b)` is `a.x*b.x + a.y*b.y + a.z*b.z`,
whatever the arithmetic `+`, `*` stand for; the function is a pure function of the
two values, so neither operand is changed.  In particular
`dot((1,2,3), (4,5,6)) = 32`. -/
theorem C13_dot_value :
    (∀ (F : Type) [Add F] [Mul F] (a b : Point F),
      a.dot b = a.x * b.x + a.y * b.y + a.z * b.z) ∧
    Point.dot (⟨1, 2, 3⟩ : Point ℚ) ⟨4, 5, 6⟩ = 32 := by
  refine ⟨fun F _ _ a b => rfl, by norm_num [Point.dot]⟩

/-- C14. For all points `a`, `b` and every scalar `s`: `a + b` is the point of
coordinate-wise sums and `a - b` the point of coordinate-wise differences, each
equal to what `+=` and `-=` leave in the receiver `a`; `a /= s` leaves in `a` the
coordinate-wise quotients by `s`.  In particular `(1,2,3) + (4,5,6)` is `(5,7,9)`,
`(5,7,9) - (4,5,6)` is `(1,2,3)` and `(2,4,6)` divided by 2 is `(1,2,3)`. -/
theorem C14_elementwise_arithmetic :
    (∀ (F : Type) [Add F] [Sub F] [Div F] (a b : Point F) (s : F),
      a.add b = ⟨a.x + b.x, a.y + b.y, a.z + b.z⟩ ∧
      a.sub b = ⟨a.x - b.x, a.y - b.y, a.z - b.z⟩ ∧
      a.add b = a.addAssign b ∧
      a.sub b = a.subAssign b ∧
      a.addAssign b = ⟨a.x + b.x, a.y + b.y, a.z + b.z⟩ ∧
      a.subAssign b = ⟨a.x - b.x, a.y - b.y, a.z - b.z⟩ ∧
      a.divAssign s = ⟨a.x / s, a.y / s, a.z / s⟩) ∧
    Point.add (⟨1, 2, 3⟩ : Point ℚ) ⟨4, 5, 6⟩ = ⟨5, 7, 9⟩ ∧
    Point.sub (⟨5, 7, 9⟩ : Point ℚ) ⟨4, 5, 6⟩ = ⟨1, 2, 3⟩ ∧
    Point.divAssign (⟨2, 4, 6⟩ : Point ℚ) 2 = ⟨1, 2, 3⟩ := by
  refine ⟨fun F _ _ _ a b s => ⟨rfl, rfl, rfl, rfl, rfl, rfl, rfl⟩, ?_, ?_, ?_⟩
  · norm_num [Point.add, Point.addAssign]
  · norm_num [Point.sub, Point.subAssign]
  · norm_num [Point.divAssign]

/-- C15. For every container state on which all checks of `saveAsPly` pass, every
array access of the body loop is within bounds: every `i < x_vals.size()` is an
index of `y_vals` and `z_vals` and, when `x_normals` is not empty, of `x_normals`,
`y_normals` and `z_normals`; every read of the loop returns a value, the loop runs
to its end, and `saveAsPly` does not end in an out-of-range access.  In every
state, checked or not, `saveAsPly` never ends in an out-of-range access. -/
theorem C15_body_in_bounds {T : Type} (fmt : T → String) (pc : PointCloud T)
    (hc : plyChecks pc = .ok ()) :
    (∀ i, i < pc.x_vals.length →
      i < pc.y_vals.length ∧ i < pc.z_vals.length ∧
      (pc.x_normals.length ≠ 0 →
        i < pc.x_normals.length ∧ i < pc.y_normals.length ∧ i < pc.z_normals.length)) ∧
    (∀ i, i < pc.x_vals.length →
      (∃ a, vecGet pc.x_vals i = .ok a) ∧ (∃ b, vecGet pc.y_vals i = .ok b) ∧
      (∃ c, vecGet pc.z_vals i = .ok c) ∧
      (pc.x_normals.length ≠ 0 →
        (∃ a, vecGet pc.x_normals i = .ok a) ∧ (∃ b, vecGet pc.y_normals i = .ok b) ∧
        (∃ c, vecGet pc.z_normals i = .ok c))) ∧
    (∀ out : String, ∃ text,
      plyBodyLoop fmt pc (pc.x_normals.length != 0) pc.x_vals.length 0 out = .ok text) ∧
    (∀ (filename : String) (fs : FileSystem), ∃ r, saveAsPly fmt pc filename fs = .ok r) ∧
    (∀ (pc2 : PointCloud T) (filename : String) (fs : FileSystem),
      saveAsPly fmt pc2 filename fs ≠ .error .outOfBounds) := by
  obtain ⟨h1, h2, h3⟩ := plyChecks_bounds pc hc
  have hb : ∀ i, i < pc.x_vals.length →
      i < pc.y_vals.length ∧ i < pc.z_vals.length ∧
      (pc.x_normals.length ≠ 0 →
        i < pc.x_normals.length ∧ i < pc.y_normals.length ∧ i < pc.z_normals.length) := by
    intro i hi
    refine ⟨by omega, by omega, fun hx => ?_⟩
    have := h3 hx
    omega
  refine ⟨hb, ?_, ?_, fun filename fs => saveAsPly_returns fmt pc filename fs hc, ?_⟩
  · intro i hi
    obtain ⟨hy, hz, hn⟩ := hb i hi
    refine ⟨⟨_, vecGet_of_lt _ _ hi⟩, ⟨_, vecGet_of_lt _ _ hy⟩, ⟨_, vecGet_of_lt _ _ hz⟩,
      fun hx => ?_⟩
    obtain ⟨g1, g2, g3⟩ := hn hx
    exact ⟨⟨_, vecGet_of_lt _ _ g1⟩, ⟨_, vecGet_of_lt _ _ g2⟩, ⟨_, vecGet_of_lt _ _ g3⟩⟩
  · intro out
    refine ⟨_, plyBodyLoop_eq fmt pc pc.x_vals.length 0 out (by omega) (by omega) (by omega) ?_⟩
    intro hn
    have hx : pc.x_normals.length ≠ 0 := by simpa [hasNormals] using hn
    have := h3 hx
    omega
  · intro pc2 filename fs
    by_cases h : plyChecks pc2 = .ok ()
    · obtain ⟨r, hr⟩ := saveAsPly_returns fmt pc2 filename fs h
      rw [hr]
      intro he
      cases he
    · rw [saveAsPly_abort fmt pc2 filename fs _ (plyChecks_error pc2 h)]
      intro he
      cases he

/-- Witness of C15: the three-point cloud with normals. -/
theorem C15_body_in_bounds_witness :
    plyChecks cloud3n = .ok () ∧
    (∀ i, i < cloud3n.x_vals.length →
      i < cloud3n.y_vals.length ∧ i < cloud3n.z_vals.length ∧
      (cloud3n.x_normals.length ≠ 0 →
        i < cloud3n.x_normals.length ∧ i < cloud3n.y_normals.length ∧
        i < cloud3n.z_normals.length)) ∧
    ∀ (filename : String) (fs : FileSystem),
      saveAsPly (fun n : Int => toString n) cloud3n filename fs ≠ .error .outOfBounds :=
  ⟨by decide,
    (C15_body_in_bounds (fun n : Int => toString n) cloud3n (by decide)).1,
    (C15_body_in_bounds (fun n : Int => toString n) cloud3n (by decide)).2.2.2.2 cloud3n⟩

/-- C16. A container built by the constructor from `N` points and `N` normals and
then exported to a file that opens carries the normal block, that is the
`nx`/`ny`/`nz` header lines and three trailing values on every body line, if and
only if `N > 0`: the normal columns have length `N`, every one of the `N` body
lines holds the six values of its vertex, and for `N = 0` the file is the
seven-line header with vertex count 0 and nothing after it. -/
theorem C16_constructed_export {F T : Type} (conv : F → T) (d : T) (fmt : T → String)
    (N : Nat) (points normals : List (Point F)) (filename : String) (fs : FileSystem)
    (hp : points.length = N) (hn : normals.length = N) (ho : fs.openable filename = true) :
    ∃ (pc : PointCloud T) (fs1 : FileSystem) (lines : List String),
      PointCloud.ctor conv d points normals = .ok pc ∧
      saveAsPly fmt pc filename fs = .ok (true, fs1) ∧
      (pc.x_normals.length ≠ 0 ↔ 0 < N) ∧
      fs1.content filename = some
        (unlines
          (["ply", "format ascii 1.0", "element vertex " ++ toString N,
            "property float x", "property float y", "property float z"]
          ++ (if 0 < N then ["property float nx", "property float ny", "property float nz"]
              else [])
          ++ ["end_header"])
        ++ unlines lines) ∧
      lines.length = N ∧
      (∀ i, i < N → ∃ p q, points[i]? = some p ∧ normals[i]? = some q ∧
        lines[i]? = some (spaced [fmt (conv p.x), fmt (conv p.y), fmt (conv p.z),
          fmt (conv q.x), fmt (conv q.y), fmt (conv q.z)])) ∧
      (N = 0 → fs1.content filename = some
        ("ply\nformat ascii 1.0\nelement vertex 0\nproperty float x\n"
          ++ "property float y\nproperty float z\nend_header\n")) := by
  have hlen : points.length = normals.length := by omega
  have hc := columnsOf_checks conv points normals hlen
  have hxn : (columnsOf conv points normals).x_normals.length = N := by simp [columnsOf, hn]
  have hxv : (columnsOf conv points normals).x_vals.length = N := by simp [columnsOf, hp]
  have hhead : plyHeaderLines (columnsOf conv points normals) =
      ["ply", "format ascii 1.0", "element vertex " ++ toString N,
        "property float x", "property float y", "property float z"]
      ++ (if 0 < N then ["property float nx", "property float ny", "property float nz"]
          else [])
      ++ ["end_header"] := by
    by_cases hN : 0 < N
    · have : N ≠ 0 := by omega
      simp [plyHeaderLines, hasNormals, hxn, hxv, hN, this]
    · have : N = 0 := by omega
      simp [plyHeaderLines, hasNormals, hxn, hxv, this]
  have hcontent : (fs.store filename (plyText fmt (columnsOf conv points normals))).content
      filename = some (unlines (plyHeaderLines (columnsOf conv points normals))
        ++ unlines (plyBodyLines fmt (columnsOf conv points normals))) := by
    rw [store_content, plyText, unlines_append]
  refine ⟨columnsOf conv points normals, fs.store filename (plyText fmt _),
    plyBodyLines fmt (columnsOf conv points normals), ctor_eq conv d points normals hlen,
    saveAsPly_open fmt _ filename fs hc ho, ?_, ?_, ?_, ?_, ?_⟩
  · rw [hxn]; omega
  · rw [hcontent, hhead]
  · rw [plyBodyLines_length, hxv]
  · intro i hi
    have h1 : i < points.length := by omega
    have h2 : i < normals.length := by omega
    refine ⟨points[i], normals[i], List.getElem?_eq_getElem h1, List.getElem?_eq_getElem h2, ?_⟩
    rw [plyBodyLines_getElem? fmt _ i (by omega), columnsOf_row conv points normals i h1 h2]
    rfl
  · intro hN
    subst hN
    have e1 : points = [] := List.length_eq_zero.mp hp
    have e2 : normals = [] := List.length_eq_zero.mp hn
    subst e1 e2
    rw [store_content]
    have e : plyText fmt (columnsOf conv ([] : List (Point F)) []) = unlines
        ["ply", "format ascii 1.0", "element vertex " ++ toString 0, "property float x",
          "property float y", "property float z", "end_header"] := by
      simp [plyText, plyHeaderLines, plyBodyLines, hasNormals, columnsOf]
    rw [e]
    rfl

/-- Witness of C16: one point and one normal, exported to `cloud.ply`. -/
theorem C16_constructed_export_witness :
    ([(⟨1, 2, 3⟩ : Point Int)].length = 1 ∧ [(⟨7, 8, 9⟩ : Point Int)].length = 1 ∧
      fsEmpty.openable "cloud.ply" = true) ∧
    (∃ (pc : PointCloud Int) (fs1 : FileSystem),
      PointCloud.ctor id 0 [⟨1, 2, 3⟩] [⟨7, 8, 9⟩] = .ok pc ∧
      saveAsPly (fun n : Int => toString n) pc "cloud.ply" fsEmpty = .ok (true, fs1) ∧
      (pc.x_normals.length ≠ 0 ↔ 0 < 1)) ∧
    ((PointCloud.ctor id 0 [(⟨1, 2, 3⟩ : Point Int)] [⟨7, 8, 9⟩]).bind
        (fun pc => (saveAsPly (fun n : Int => toString n) pc "cloud.ply" fsEmpty).map
          (fun r => (r.1, r.2.content "cloud.ply")))
      = .ok (true, some ("ply\nformat ascii 1.0\nelement vertex 1\nproperty float x\n"
          ++ "property float y\nproperty float z\nproperty float nx\nproperty float ny\n"
          ++ "property float nz\nend_header\n1 2 3 7 8 9\n"))) ∧
    ((PointCloud.ctor id 0 ([] : List (Point Int)) []).bind
        (fun pc => (saveAsPly (fun n : Int => toString n) pc "cloud.ply" fsEmpty).map
          (fun r => (r.1, r.2.content "cloud.ply")))
      = .ok (true, some ("ply\nformat ascii 1.0\nelement vertex 0\nproperty float x\n"
          ++ "property float y\nproperty float z\nend_header\n"))) := by
  refine ⟨⟨rfl, rfl, by decide⟩, ?_, by rfl, by rfl⟩
  obtain ⟨pc, fs1, _, h1, h2, h3, _⟩ :=
    C16_constructed_export (id : Int → Int) 0 (fun n : Int => toString n) 1
      [⟨1, 2, 3⟩] [⟨7, 8, 9⟩] "cloud.ply" fsEmpty rfl rfl (by decide)
  exact ⟨pc, fs1, h1, h2, h3⟩

/-- C17. Over exact arithmetic (a linearly ordered commutative ring: the integers,
the rationals, the reals), for all points `a` and `b`: `distance2(a, b)` is
`(a - b).dot(a - b)`, `distance2(a, b)` is `distance2(b, a)`, `distance2(a, b)` is
not negative, and `distance2(a, b)` is 0 if and only if `a` and `b` have equal
coordinates. -/
theorem C17_distance2_algebra (F : Type) [LinearOrderedCommRing F] (a b : Point F) :
    Point.distance2 a b = (a.sub b).dot (a.sub b) ∧
    Point.distance2 a b = Point.distance2 b a ∧
    0 ≤ Point.distance2 a b ∧
    (Point.distance2 a b = 0 ↔ a.x = b.x ∧ a.y = b.y ∧ a.z = b.z) ∧
    (Point.distance2 a b = 0 ↔ a = b) := by
  have hcoord : Point.distance2 a b = 0 ↔ a.x = b.x ∧ a.y = b.y ∧ a.z = b.z := by
    simp only [Point.distance2]
    constructor
    · intro h
      have hx := mul_self_nonneg (a.x - b.x)
      have hy := mul_self_nonneg (a.y - b.y)
      have hz := mul_self_nonneg (a.z - b.z)
      have ex : (a.x - b.x) * (a.x - b.x) = 0 := by linarith
      have ey : (a.y - b.y) * (a.y - b.y) = 0 := by linarith
      have ez : (a.z - b.z) * (a.z - b.z) = 0 := by linarith
      exact ⟨sub_eq_zero.mp (mul_self_eq_zero.mp ex), sub_eq_zero.mp (mul_self_eq_zero.mp ey),
        sub_eq_zero.mp (mul_self_eq_zero.mp ez)⟩
    · rintro ⟨hx, hy, hz⟩
      rw [hx, hy, hz]
      ring
  refine ⟨rfl, ?_, ?_, hcoord, ?_⟩
  · simp only [Point.distance2]
    ring
  · simp only [Point.distance2]
    have hx := mul_self_nonneg (a.x - b.x)
    have hy := mul_self_nonneg (a.y - b.y)
    have hz := mul_self_nonneg (a.z - b.z)
    linarith
  · rw [hcoord]
    constructor
    · rintro ⟨hx, hy, hz⟩
      cases a
      cases b
      simp only at hx hy hz
      rw [hx, hy, hz]
    · intro h
      rw [h]
      exact ⟨rfl, rfl, rfl⟩

end ShapeExtraction
